import Mathlib

/-!
Shallow embedding of the AST-lowering pass and checker pipeline of the
vscode-arcaea-file-format language server.

The TypeScript sources embedded here:
- `types.ts`: the AST data model (events, domain values, metadata, file, errors);
- `to-ast.ts` (`ToASTVisitor`, `eventTransformer`, `parseValue`,
  `checkValuesCount`, `checkValueType`, `rejectSubevent`,
  `transformArcSubevents`, `affToAST`);
- `checker/float-digit.ts` (`floatDigitChecker`, `checkFloat`);
- `index.ts` of the checker pipeline (`processCheckers`).

Mutation of the shared `errors: AFFError[]` accumulator is embedded in
append style: every visitor/transformer returns the list of diagnostics it
appends, in push order, and each caller concatenates the lists of its
callees in call order.  Floating-point values are represented by their
literal text: no function in the embedded fragment inspects a float
numerically (only its fractional-digit count is consumed).
-/

/-- Source range, mirroring chevrotain's `CstNodeLocation`. -/
structure CstNodeLocation where
  startLine : Nat
  startColumn : Nat
  startOffset : Nat
  endLine : Nat
  endColumn : Nat
  endOffset : Nat
deriving DecidableEq, Repr

/-- Severity levels of `vscode-languageserver`'s `DiagnosticSeverity`. -/
inductive DiagnosticSeverity where
  | error
  | warning
  | information
  | hint
deriving DecidableEq, Repr

/-- Related-information entry of a diagnostic (`AFFErrorRelatedInfo`). -/
structure AFFErrorRelatedInfo where
  message : String
  location : CstNodeLocation
deriving DecidableEq, Repr

/-- A diagnostic record (`AFFError`).  The optional `relatedInfo` of the
source is embedded as a list that is empty when absent. -/
structure AFFError where
  message : String
  location : CstNodeLocation
  severity : DiagnosticSeverity
  relatedInfo : List AFFErrorRelatedInfo
deriving DecidableEq, Repr

/-- A value paired with the source range it came from (`WithLocation<T>`). -/
structure WithLocation (α : Type) where
  data : α
  location : CstNodeLocation
deriving DecidableEq, Repr

/-- `AFFInt`. -/
structure AFFInt where
  value : Int
deriving DecidableEq, Repr

/-- `AFFFloat`.  The numeric `value` is kept as the literal text; `digit` is
the fractional-digit count computed during lowering.  It is an `Int` because
the source computes `image.length - image.indexOf(".") - 1` in JavaScript
arithmetic, where `indexOf` yields `-1` on a missing dot. -/
structure AFFFloat where
  value : String
  digit : Int
deriving DecidableEq, Repr

/-- `AFFWord`. -/
structure AFFWord where
  value : String
deriving DecidableEq, Repr

/-- `AFFValue`: the tagged union of the three scalar literal kinds. -/
inductive AFFValue where
  | int (v : AFFInt)
  | float (v : AFFFloat)
  | word (v : AFFWord)
deriving DecidableEq, Repr

/-- The `kind` tag string of an `AFFValue`. -/
def AFFValue.kindName : AFFValue → String
  | .int _ => "int"
  | .float _ => "float"
  | .word _ => "word"

/-- `AFFTrackId`.  The TypeScript type restricts `value` to `1 | 2 | 3 | 4`
statically; at runtime the value is a plain number, so it is embedded as an
unconstrained `Int` and the range is proved as an invariant. -/
structure AFFTrackId where
  value : Int
deriving DecidableEq, Repr

/-- The `affTrackIds` set, in insertion order. -/
def affTrackIds : List Int := [1, 2, 3, 4]

/-- `AFFColorId`, embedded like `AFFTrackId`. -/
structure AFFColorId where
  value : Int
deriving DecidableEq, Repr

/-- The `affColorIds` set, in insertion order. -/
def affColorIds : List Int := [0, 1, 2]

/-- `AFFArcKind`, embedded with an unconstrained string value. -/
structure AFFArcKind where
  value : String
deriving DecidableEq, Repr

/-- The `affArcKinds` set, in insertion order. -/
def affArcKinds : List String := ["b", "s", "si", "so", "sisi", "siso", "soso", "sosi"]

/-- `AFFEffect`, embedded with an unconstrained string value. -/
structure AFFEffect where
  value : String
deriving DecidableEq, Repr

/-- The `affEffects` set, in insertion order. -/
def affEffects : List String := ["none", "full", "incremental"]

/-- `AFFBool`. -/
structure AFFBool where
  value : Bool
deriving DecidableEq, Repr

/-- The `affBools` set, in insertion order. -/
def affBools : List String := ["true", "false"]

/-- `AFFTimingEvent`. -/
structure AFFTimingEvent where
  tagLocation : CstNodeLocation
  time : WithLocation AFFInt
  bpm : WithLocation AFFFloat
  segment : WithLocation AFFFloat
deriving DecidableEq, Repr

/-- `AFFTapEvent` (untagged in source notation, hence no `tagLocation`). -/
structure AFFTapEvent where
  time : WithLocation AFFInt
  trackId : WithLocation AFFTrackId
deriving DecidableEq, Repr

/-- `AFFHoldEvent`.  The source field `end` is named `endTime` here because
`end` is reserved in Lean. -/
structure AFFHoldEvent where
  tagLocation : CstNodeLocation
  start : WithLocation AFFInt
  endTime : WithLocation AFFInt
  trackId : WithLocation AFFTrackId
deriving DecidableEq, Repr

/-- `AFFArctapEvent`. -/
structure AFFArctapEvent where
  tagLocation : CstNodeLocation
  time : WithLocation AFFInt
deriving DecidableEq, Repr

/-- `AFFArcEvent`.  The source field `end` is named `endTime` here because
`end` is reserved in Lean; `arctaps` is the optional ordered sub-event list. -/
structure AFFArcEvent where
  tagLocation : CstNodeLocation
  start : WithLocation AFFInt
  endTime : WithLocation AFFInt
  xStart : WithLocation AFFFloat
  xEnd : WithLocation AFFFloat
  arcKind : WithLocation AFFArcKind
  yStart : WithLocation AFFFloat
  yEnd : WithLocation AFFFloat
  colorId : WithLocation AFFColorId
  effect : WithLocation AFFEffect
  isLine : WithLocation AFFBool
  arctaps : Option (WithLocation (List (WithLocation AFFArctapEvent)))
deriving DecidableEq, Repr

/-- `AFFEvent`: the closed union over the five event kinds.  The source
narrows `AFFItem` to the four kinds legal at top level; here items reuse
`AFFEvent` and the exclusion of `arctap` is proved about the lowering. -/
inductive AFFEvent where
  | timing (e : AFFTimingEvent)
  | tap (e : AFFTapEvent)
  | hold (e : AFFHoldEvent)
  | arc (e : AFFArcEvent)
  | arctap (e : AFFArctapEvent)
deriving DecidableEq, Repr

/-- The `kind` tag string of an `AFFEvent`. -/
def AFFEvent.kindName : AFFEvent → String
  | .timing _ => "timing"
  | .tap _ => "tap"
  | .hold _ => "hold"
  | .arc _ => "arc"
  | .arctap _ => "arctap"

/-- `AFFMetadataEntry`. -/
structure AFFMetadataEntry where
  key : WithLocation String
  value : WithLocation String
deriving DecidableEq, Repr

/-- `AFFMetadata`.  The JavaScript `Map` preserves insertion order, so it is
embedded as an ordered association list. -/
structure AFFMetadata where
  data : List (String × WithLocation AFFMetadataEntry)
  metaEndLocation : CstNodeLocation
deriving DecidableEq, Repr

/-- `AFFFile`. -/
structure AFFFile where
  metadata : WithLocation AFFMetadata
  items : List (WithLocation AFFEvent)
deriving DecidableEq, Repr

/-- Lookup in the ordered association list embedding of a JavaScript `Map`:
`Map.get` returns the (unique) entry for the key, here the first match. -/
def mapGet? {α : Type} (m : List (String × α)) (k : String) : Option α :=
  (m.find? (fun p => p.1 == k)).map (fun p => p.2)

/-- Token kinds of the lexer that can appear in a `values` production. -/
inductive TokenType where
  | word
  | int
  | float
deriving DecidableEq, Repr

/-- A CST token (`IToken`) with the fields the lowering pass reads. -/
structure IToken where
  tokenType : TokenType
  image : String
  location : CstNodeLocation
deriving DecidableEq, Repr

/-- The `locationFromToken` helper: the embedded token already stores its
location as one record. -/
def locationFromToken (token : IToken) : CstNodeLocation :=
  token.location

/-- JavaScript `String.indexOf` for a single character: the character index
of the first occurrence, or `-1` when absent. -/
def jsIndexOf (s : String) (c : Char) : Int :=
  let i := s.toList.indexOf c
  if i = s.toList.length then -1 else (i : Int)

/-- Decimal digit accumulator for `parseIntS`. -/
def digitsToInt (ds : List Char) (acc : Int) : Int :=
  match ds with
  | [] => acc
  | c :: cs => digitsToInt cs (acc * 10 + ((c.toNat : Int) - ('0'.toNat : Int)))

/-- JavaScript `parseInt` on an `int`-token image, as a kernel-executable
digit-by-digit parse of an optionally signed decimal numeral.  The grammar
guarantees the image has that shape; in the source a parse failure here would
be an exception (an internal fault), never a diagnostic. -/
def parseIntS (s : String) : Int :=
  match s.toList with
  | '-' :: ds => -(digitsToInt ds 0)
  | ds => digitsToInt ds 0

/-- JavaScript `Array.join()` with its default comma separator. -/
def joinComma (l : List String) : String :=
  String.intercalate "," l

/-- Error text fragment `[...affTrackIds.values()].join()`. -/
def trackIdsText : String := joinComma (affTrackIds.map toString)

/-- Error text fragment `[...affColorIds.values()].join()`. -/
def colorIdsText : String := joinComma (affColorIds.map toString)

/-- Error text fragment `[...affArcKinds.values()].join()`. -/
def arcKindsText : String := joinComma affArcKinds

/-- Error text fragment `[...affEffects.values()].join()`. -/
def effectsText : String := joinComma affEffects

/-- Error text fragment `[...affBools.values()].join()`. -/
def boolsText : String := joinComma affBools

/-- The "should be one of …" range error shared by all `parseValue` members. -/
def rangeError (eventKind fieldname oneOf : String) (location : CstNodeLocation) : AFFError :=
  { message := s!"The value in the \"{fieldname}\" field of event with type \"{eventKind}\" should be one of {oneOf}"
    location := location
    severity := .error
    relatedInfo := [] }

/-- `parseValue.trackId`.  The `Number.isInteger` guard of the source is an
internal-fault check that cannot fire here because `AFFInt.value` is an
integer by type. -/
def parseValue.trackId (eventKind fieldname : String) (int? : Option (WithLocation AFFInt)) :
    List AFFError × Option (WithLocation AFFTrackId) :=
  match int? with
  | some int =>
    let intValue := int.data.value
    if intValue < 1 ∨ intValue > 4 then
      ([rangeError eventKind fieldname trackIdsText int.location], none)
    else
      ([], some { data := { value := intValue }, location := int.location })
  | none => ([], none)

/-- `parseValue.colorId`. -/
def parseValue.colorId (eventKind fieldname : String) (int? : Option (WithLocation AFFInt)) :
    List AFFError × Option (WithLocation AFFColorId) :=
  match int? with
  | some int =>
    let intValue := int.data.value
    if intValue < 0 ∨ intValue > 2 then
      ([rangeError eventKind fieldname colorIdsText int.location], none)
    else
      ([], some { data := { value := intValue }, location := int.location })
  | none => ([], none)

/-- `parseValue.arcKind`. -/
def parseValue.arcKind (eventKind fieldname : String) (word? : Option (WithLocation AFFWord)) :
    List AFFError × Option (WithLocation AFFArcKind) :=
  match word? with
  | some word =>
    let wordValue := word.data.value
    if affArcKinds.contains wordValue then
      ([], some { data := { value := wordValue }, location := word.location })
    else
      ([rangeError eventKind fieldname arcKindsText word.location], none)
  | none => ([], none)

/-- `parseValue.effect`. -/
def parseValue.effect (eventKind fieldname : String) (word? : Option (WithLocation AFFWord)) :
    List AFFError × Option (WithLocation AFFEffect) :=
  match word? with
  | some word =>
    let wordValue := word.data.value
    if affEffects.contains wordValue then
      ([], some { data := { value := wordValue }, location := word.location })
    else
      ([rangeError eventKind fieldname effectsText word.location], none)
  | none => ([], none)

/-- `parseValue.bool`. -/
def parseValue.bool (eventKind fieldname : String) (word? : Option (WithLocation AFFWord)) :
    List AFFError × Option (WithLocation AFFBool) :=
  match word? with
  | some word =>
    let wordValue := word.data.value
    if affBools.contains wordValue then
      ([], some { data := { value := wordValue == "true" }, location := word.location })
    else
      ([rangeError eventKind fieldname boolsText word.location], none)
  | none => ([], none)

/-- The `rejectSubevent` helper.  The source receives the sub-event list and
its location as two always-consistent nullable parameters; here they are
bundled in one `Option`. -/
def rejectSubevent (kind : String)
    (subevents : Option (List (WithLocation AFFEvent) × CstNodeLocation)) : List AFFError :=
  match subevents with
  | some (_, subeventsLocation) =>
    [{ message := s!"Event with type \"{kind}\" should not have subevents."
       location := subeventsLocation
       severity := .error
       relatedInfo := [] }]
  | none => []

/-- The value-count error pushed by `checkValuesCount`. -/
def countError (kind : String) (count actual : Nat) (valuesLocation : CstNodeLocation) : AFFError :=
  { message := s!"Event with type \"{kind}\" should have {count} field(s) instead of {actual} field(s)."
    location := valuesLocation
    severity := .error
    relatedInfo := [] }

/-- The `checkValuesCount` helper: `(appended errors, boolean result)`. -/
def checkValuesCount (kind : String) (count : Nat) (values : List (WithLocation AFFValue))
    (valuesLocation : CstNodeLocation) : List AFFError × Bool :=
  if values.length ≠ count then
    ([countError kind count values.length valuesLocation], false)
  else
    ([], true)

/-- The value-type error pushed by `checkValueType`. -/
def typeMismatchError (eventKind fieldname expected actual : String)
    (location : CstNodeLocation) : AFFError :=
  { message := s!"The value in the \"{fieldname}\" field of event with type \"{eventKind}\" should be \"{expected}\" instead of \"{actual}\""
    location := location
    severity := .error
    relatedInfo := [] }

/-- `checkValueType` specialised to the `int` field kind.  The source indexes
`values[id]` unchecked (call sites establish the bound via
`checkValuesCount`); the out-of-bounds case is unreachable there. -/
def checkValueTypeInt (eventKind fieldname : String) (values : List (WithLocation AFFValue))
    (id : Nat) : List AFFError × Option (WithLocation AFFInt) :=
  match values.get? id with
  | none => ([], none)
  | some value =>
    match value.data with
    | .int v => ([], some { data := v, location := value.location })
    | other => ([typeMismatchError eventKind fieldname "int" other.kindName value.location], none)

/-- `checkValueType` specialised to the `float` field kind. -/
def checkValueTypeFloat (eventKind fieldname : String) (values : List (WithLocation AFFValue))
    (id : Nat) : List AFFError × Option (WithLocation AFFFloat) :=
  match values.get? id with
  | none => ([], none)
  | some value =>
    match value.data with
    | .float v => ([], some { data := v, location := value.location })
    | other => ([typeMismatchError eventKind fieldname "float" other.kindName value.location], none)

/-- `checkValueType` specialised to the `word` field kind. -/
def checkValueTypeWord (eventKind fieldname : String) (values : List (WithLocation AFFValue))
    (id : Nat) : List AFFError × Option (WithLocation AFFWord) :=
  match values.get? id with
  | none => ([], none)
  | some value =>
    match value.data with
    | .word v => ([], some { data := v, location := value.location })
    | other => ([typeMismatchError eventKind fieldname "word" other.kindName value.location], none)

/-- The dropped-sub-event error pushed by `transformArcSubevents`. -/
def subeventTypeError (kind : String) (location : CstNodeLocation) : AFFError :=
  { message := s!"Type of subevent of event with type \"arc\" should be \"arctap\" instead of \"{kind}\""
    location := location
    severity := DiagnosticSeverity.error
    relatedInfo := [] }

/-- The `transformArcSubevents` loop body: splits a visited sub-event list
into the dropped-kind errors and the retained arctaps, in source order. -/
def collectArctaps : List (WithLocation AFFEvent) →
    List AFFError × List (WithLocation AFFArctapEvent)
  | [] => ([], [])
  | se :: rest =>
    let (errs, arctaps) := collectArctaps rest
    match se.data with
    | .arctap a => (errs, { data := a, location := se.location } :: arctaps)
    | other => (subeventTypeError other.kindName se.location :: errs, arctaps)

/-- `transformArcSubevents`. -/
def transformArcSubevents (subevents : List (WithLocation AFFEvent))
    (subeventsLocation : CstNodeLocation) :
    List AFFError × WithLocation (List (WithLocation AFFArctapEvent)) :=
  let (errs, arctaps) := collectArctaps subevents
  (errs, { data := arctaps, location := subeventsLocation })

/-- `eventTransformer.tap`. -/
def eventTransformer.tap (values : List (WithLocation AFFValue)) (valuesLocation : CstNodeLocation)
    (subevents : Option (List (WithLocation AFFEvent) × CstNodeLocation)) :
    List AFFError × Option AFFTapEvent :=
  let e0 := rejectSubevent "tap" subevents
  match checkValuesCount "tap" 2 values valuesLocation with
  | (ec, false) => (e0 ++ ec, none)
  | (ec, true) =>
    let (e1, time) := checkValueTypeInt "tap" "time" values 0
    let (e2, rawTrackId) := checkValueTypeInt "tap" "track-id" values 1
    let (e3, trackId) := parseValue.trackId "tap" "track-id" rawTrackId
    match time, trackId with
    | some time, some trackId =>
      (e0 ++ ec ++ e1 ++ e2 ++ e3, some { time := time, trackId := trackId })
    | _, _ => (e0 ++ ec ++ e1 ++ e2 ++ e3, none)

/-- `eventTransformer.hold`. -/
def eventTransformer.hold (values : List (WithLocation AFFValue)) (valuesLocation : CstNodeLocation)
    (subevents : Option (List (WithLocation AFFEvent) × CstNodeLocation))
    (tagLocation : CstNodeLocation) : List AFFError × Option AFFHoldEvent :=
  let e0 := rejectSubevent "hold" subevents
  match checkValuesCount "hold" 3 values valuesLocation with
  | (ec, false) => (e0 ++ ec, none)
  | (ec, true) =>
    let (e1, start) := checkValueTypeInt "hold" "start" values 0
    let (e2, endV) := checkValueTypeInt "hold" "end" values 1
    let (e3, rawTrackId) := checkValueTypeInt "hold" "track-id" values 2
    let (e4, trackId) := parseValue.trackId "hold" "track-id" rawTrackId
    match start, endV, trackId with
    | some start, some endV, some trackId =>
      (e0 ++ ec ++ e1 ++ e2 ++ e3 ++ e4,
        some { start := start, endTime := endV, trackId := trackId, tagLocation := tagLocation })
    | _, _, _ => (e0 ++ ec ++ e1 ++ e2 ++ e3 ++ e4, none)

/-- `eventTransformer.arctap`. -/
def eventTransformer.arctap (values : List (WithLocation AFFValue))
    (valuesLocation : CstNodeLocation)
    (subevents : Option (List (WithLocation AFFEvent) × CstNodeLocation))
    (tagLocation : CstNodeLocation) : List AFFError × Option AFFArctapEvent :=
  let e0 := rejectSubevent "arctap" subevents
  match checkValuesCount "arctap" 1 values valuesLocation with
  | (ec, false) => (e0 ++ ec, none)
  | (ec, true) =>
    let (e1, time) := checkValueTypeInt "arctap" "time" values 0
    match time with
    | some time => (e0 ++ ec ++ e1, some { time := time, tagLocation := tagLocation })
    | none => (e0 ++ ec ++ e1, none)

/-- `eventTransformer.timing`. -/
def eventTransformer.timing (values : List (WithLocation AFFValue))
    (valuesLocation : CstNodeLocation)
    (subevents : Option (List (WithLocation AFFEvent) × CstNodeLocation))
    (tagLocation : CstNodeLocation) : List AFFError × Option AFFTimingEvent :=
  let e0 := rejectSubevent "timing" subevents
  match checkValuesCount "timing" 3 values valuesLocation with
  | (ec, false) => (e0 ++ ec, none)
  | (ec, true) =>
    let (e1, time) := checkValueTypeInt "timing" "time" values 0
    let (e2, bpm) := checkValueTypeFloat "timing" "bpm" values 1
    let (e3, segment) := checkValueTypeFloat "timing" "segment" values 2
    match time, bpm, segment with
    | some time, some bpm, some segment =>
      (e0 ++ ec ++ e1 ++ e2 ++ e3,
        some { time := time, bpm := bpm, segment := segment, tagLocation := tagLocation })
    | _, _, _ => (e0 ++ ec ++ e1 ++ e2 ++ e3, none)

/-- `eventTransformer.arc`.  Note that `arc` performs no `rejectSubevent`
call, and that `transformArcSubevents` runs only on the success path (inside
the constructed object literal in the source), so sub-event kind errors are
not emitted when one of the ten own fields fails. -/
def eventTransformer.arc (values : List (WithLocation AFFValue)) (valuesLocation : CstNodeLocation)
    (subevents : Option (List (WithLocation AFFEvent) × CstNodeLocation))
    (tagLocation : CstNodeLocation) : List AFFError × Option AFFArcEvent :=
  match checkValuesCount "arc" 10 values valuesLocation with
  | (ec, false) => (ec, none)
  | (ec, true) =>
    let (e1, start) := checkValueTypeInt "arc" "start" values 0
    let (e2, endV) := checkValueTypeInt "arc" "end" values 1
    let (e3, xStart) := checkValueTypeFloat "arc" "x-start" values 2
    let (e4, xEnd) := checkValueTypeFloat "arc" "x-end" values 3
    let (e5, rawArcKind) := checkValueTypeWord "arc" "arc-kind" values 4
    let (e6, arcKind) := parseValue.arcKind "arc" "arc-kind" rawArcKind
    let (e7, yStart) := checkValueTypeFloat "arc" "y-start" values 5
    let (e8, yEnd) := checkValueTypeFloat "arc" "y-end" values 6
    let (e9, rawColorId) := checkValueTypeInt "arc" "color-id" values 7
    let (e10, colorId) := parseValue.colorId "arc" "color-id" rawColorId
    let (e11, rawEffect) := checkValueTypeWord "arc" "effect" values 8
    let (e12, effect) := parseValue.effect "arc" "effect" rawEffect
    let (e13, rawIsLine) := checkValueTypeWord "arc" "is-line" values 9
    let (e14, isLine) := parseValue.bool "arc" "is-line" rawIsLine
    let fieldErrs := e1 ++ e2 ++ e3 ++ e4 ++ e5 ++ e6 ++ e7 ++ e8 ++ e9 ++ e10 ++ e11 ++ e12 ++ e13 ++ e14
    match start, endV, xStart, xEnd, arcKind, yStart, yEnd, colorId, effect, isLine with
    | some start, some endV, some xStart, some xEnd, some arcKind,
      some yStart, some yEnd, some colorId, some effect, some isLine =>
      let (se, arctaps) :=
        match subevents with
        | some (subs, subeventsLocation) =>
          let (es, a) := transformArcSubevents subs subeventsLocation
          (es, some a)
        | none => ([], none)
      (ec ++ fieldErrs ++ se,
        some { start := start, endTime := endV, xStart := xStart, xEnd := xEnd,
               arcKind := arcKind, yStart := yStart, yEnd := yEnd, colorId := colorId,
               effect := effect, isLine := isLine, arctaps := arctaps,
               tagLocation := tagLocation })
    | _, _, _, _, _, _, _, _, _, _ => (ec ++ fieldErrs, none)

/-- CST node for the `values` production: the list of literal tokens. -/
structure ValuesNode where
  value : List IToken
  location : CstNodeLocation
deriving DecidableEq, Repr

/-- CST node for the `metadataEntry` production. -/
structure MetadataEntryNode where
  key : IToken
  data : IToken
  location : CstNodeLocation
deriving DecidableEq, Repr

/-- CST node for the `metadata` production. -/
structure MetadataNode where
  metadataEntry : List MetadataEntryNode
  metaEnd : IToken
  location : CstNodeLocation
deriving DecidableEq, Repr

/-- CST node for the `event` production: an optional tag word, the values
node, and an optional subevents node (its child event list paired with the
subevents node's location). -/
inductive EventNode where
  | mk (word : Option IToken) (values : ValuesNode)
       (subevents : Option (List EventNode × CstNodeLocation))
       (location : CstNodeLocation)

/-- Location accessor of an `EventNode`. -/
def EventNode.location : EventNode → CstNodeLocation
  | .mk _ _ _ l => l

/-- CST node for the `item` production, wrapping its event node. -/
structure ItemNode where
  event : EventNode

/-- CST node for the root `aff` production. -/
structure AffNode where
  metadata : MetadataNode
  items : List ItemNode

/-- `ToASTVisitor.values`: converts each literal token by its lexical kind,
computing the fractional-digit count for floats. -/
def visitValues (node : ValuesNode) : List (WithLocation AFFValue) :=
  node.value.map (fun token =>
    { data :=
        match token.tokenType with
        | .word => AFFValue.word { value := token.image }
        | .int => AFFValue.int { value := parseIntS token.image }
        | .float =>
          AFFValue.float
            { value := token.image
              digit := (token.image.length : Int) - jsIndexOf token.image '.' - 1 }
      location := locationFromToken token })

/-- `ToASTVisitor.metadataEntry`. -/
def visitMetadataEntry (node : MetadataEntryNode) : AFFMetadataEntry :=
  { key := { data := node.key.image, location := locationFromToken node.key }
    value := { data := node.data.image, location := locationFromToken node.data } }

/-- The duplicate-key error pushed by `ToASTVisitor.metadata`
("Previous defination" is the source's spelling). -/
def duplicateKeyError (key : String) (location previousLocation : CstNodeLocation) : AFFError :=
  { message := s!"\"{key}\" is defined twice in the metadata section."
    location := location
    severity := .error
    relatedInfo := [{ message := "Previous defination", location := previousLocation }] }

/-- One step of the entry fold in `ToASTVisitor.metadata`: state is the map
built so far and the errors pushed so far. -/
def metadataStep (acc : List (String × WithLocation AFFMetadataEntry) × List AFFError)
    (node : MetadataEntryNode) :
    List (String × WithLocation AFFMetadataEntry) × List AFFError :=
  let entry := visitMetadataEntry node
  let key := entry.key.data
  match mapGet? acc.1 key with
  | some prev =>
    (acc.1, acc.2 ++ [duplicateKeyError key entry.key.location prev.data.key.location])
  | none =>
    (acc.1 ++ [(key, { data := entry, location := node.location })], acc.2)

/-- `ToASTVisitor.metadata`. -/
def visitMetadata (node : MetadataNode) : List AFFError × AFFMetadata :=
  let (m, errs) := node.metadataEntry.foldl metadataStep ([], [])
  (errs, { data := m, metaEndLocation := locationFromToken node.metaEnd })

/-- The unknown-event-tag error pushed by `ToASTVisitor.event`. -/
def unknownTagError (tag : IToken) : AFFError :=
  let image := tag.image
  { message := s!"Unknown event type \"{image}\"."
    location := locationFromToken tag
    severity := .error
    relatedInfo := [] }

/-- The top-level-arctap error pushed by `ToASTVisitor.item`. -/
def arctapAsItemError (kind : String) (tagLocation : CstNodeLocation) : AFFError :=
  { message := s!"Event with type \"{kind}\" should not be used as an item."
    location := tagLocation
    severity := .error
    relatedInfo := [] }

/-- The tag dispatch of `ToASTVisitor.event`: an absent tag means tap; the
four known tags select their transformer; an unrecognized tag is an error
(`subErrs` are the diagnostics the subevents visit already pushed). -/
def dispatchEvent (word : Option IToken) (vals : List (WithLocation AFFValue))
    (valuesLocation : CstNodeLocation) (subErrs : List AFFError)
    (subs : Option (List (WithLocation AFFEvent) × CstNodeLocation)) :
    List AFFError × Option AFFEvent :=
  match word with
  | some tag =>
    if tag.image = "timing" then
      let (e, r) := eventTransformer.timing vals valuesLocation subs (locationFromToken tag)
      (subErrs ++ e, r.map AFFEvent.timing)
    else if tag.image = "hold" then
      let (e, r) := eventTransformer.hold vals valuesLocation subs (locationFromToken tag)
      (subErrs ++ e, r.map AFFEvent.hold)
    else if tag.image = "arc" then
      let (e, r) := eventTransformer.arc vals valuesLocation subs (locationFromToken tag)
      (subErrs ++ e, r.map AFFEvent.arc)
    else if tag.image = "arctap" then
      let (e, r) := eventTransformer.arctap vals valuesLocation subs (locationFromToken tag)
      (subErrs ++ e, r.map AFFEvent.arctap)
    else
      (subErrs ++ [unknownTagError tag], none)
  | none =>
    let (e, r) := eventTransformer.tap vals valuesLocation subs
    (subErrs ++ e, r.map AFFEvent.tap)

mutual

/-- `ToASTVisitor.event`: visits values and subevents, then dispatches on the
optional tag word. -/
def visitEvent : EventNode → List AFFError × Option AFFEvent
  | .mk word values subevents _ =>
    match subevents with
    | none => dispatchEvent word (visitValues values) values.location [] none
    | some (nodes, subeventsLocation) =>
      let p := visitSubeventNodes nodes
      dispatchEvent word (visitValues values) values.location p.1 (some (p.2, subeventsLocation))

/-- `ToASTVisitor.subevents`: visits each child event in order and filters
out the omitted ones. -/
def visitSubeventNodes : List EventNode → List AFFError × List (WithLocation AFFEvent)
  | [] => ([], [])
  | n :: rest =>
    let (e1, ev) := visitEvent n
    let (e2, evs) := visitSubeventNodes rest
    match ev with
    | none => (e1 ++ e2, evs)
    | some d => (e1 ++ e2, { data := d, location := n.location } :: evs)

end

/-- `ToASTVisitor.item`: delegates to `event` and rejects an arctap result. -/
def visitItem (node : ItemNode) : List AFFError × Option (WithLocation AFFEvent) :=
  let (es, ev) := visitEvent node.event
  match ev with
  | some event =>
    match event with
    | .arctap a => (es ++ [arctapAsItemError (AFFEvent.arctap a).kindName a.tagLocation], none)
    | _ => (es, some { data := event, location := node.event.location })
  | none => (es, none)

/-- `ToASTVisitor.items`: visits each item in order and filters out the
omitted ones. -/
def visitItems : List ItemNode → List AFFError × List (WithLocation AFFEvent)
  | [] => ([], [])
  | n :: rest =>
    let (e1, it) := visitItem n
    let (e2, its) := visitItems rest
    match it with
    | none => (e1 ++ e2, its)
    | some i => (e1 ++ e2, i :: its)

/-- `ToASTVisitor.aff`: combines metadata and items. -/
def visitAff (node : AffNode) : List AFFError × AFFFile :=
  let (em, md) := visitMetadata node.metadata
  let (ei, its) := visitItems node.items
  (em ++ ei, { metadata := { data := md, location := node.metadata.location }, items := its })

/-- `affToAST`: runs the visitor with a fresh error list and returns the
`{ast, errors}` pair. -/
def affToAST (node : AffNode) : AFFFile × List AFFError :=
  let (errors, ast) := visitAff node
  (ast, errors)

/-- `checkFloat` of the float-digit checker. -/
def checkFloat (float : WithLocation AFFFloat) : List AFFError :=
  if float.data.digit ≠ 2 then
    [{ message := "Float values should have exact 2 digits in its fractional part."
       location := float.location
       severity := .warning
       relatedInfo := [] }]
  else []

/-- `floatDigitChecker`: scans the items for timing and arc events and
checks their float fields, in source order. -/
def floatDigitChecker (file : AFFFile) : List AFFError :=
  file.items.foldl (fun errs it =>
    match it.data with
    | .timing d => errs ++ checkFloat d.bpm ++ checkFloat d.segment
    | .arc d => errs ++ checkFloat d.xStart ++ checkFloat d.xEnd ++ checkFloat d.yStart ++ checkFloat d.yEnd
    | _ => errs) []

/-- An `AFFChecker` in append style: the diagnostics it appends for a file. -/
def AFFChecker : Type := AFFFile → List AFFError

/-- `processCheckers`: runs the fixed ordered checker list
`[metadataChecker, valueRangeChecker, floatDigitChecker, timingChecker]`,
concatenating what each appends to the shared error list.  The bodies of
`metadataChecker`, `valueRangeChecker` and `timingChecker` are not among the
source files (only `floatDigitChecker`'s is), so those three checkers are
parameters here, modelled from the spec only in their calling contract: a
pure function of the file that appends its diagnostics. -/
def processCheckers (metadataChecker valueRangeChecker timingChecker : AFFChecker)
    (file : AFFFile) : List AFFError :=
  let checkers : List AFFChecker :=
    [metadataChecker, valueRangeChecker, floatDigitChecker, timingChecker]
  checkers.foldl (fun errors checker => errors ++ checker file) []
/-! Characterization lemmas for the field checks and value parsers. -/

theorem checkValueTypeInt_of_some (ek f : String) (values : List (WithLocation AFFValue))
    (id : Nat) (v : WithLocation AFFInt) (h : (checkValueTypeInt ek f values id).2 = some v) :
    checkValueTypeInt ek f values id = ([], some v) := by
  unfold checkValueTypeInt at h ⊢
  rcases hg : values.get? id with _ | w
  · rw [hg] at h; simp at h
  · rcases hw : w.data with i | fl | wd <;> simp_all

theorem checkValueTypeFloat_of_some (ek f : String) (values : List (WithLocation AFFValue))
    (id : Nat) (v : WithLocation AFFFloat) (h : (checkValueTypeFloat ek f values id).2 = some v) :
    checkValueTypeFloat ek f values id = ([], some v) := by
  unfold checkValueTypeFloat at h ⊢
  rcases hg : values.get? id with _ | w
  · rw [hg] at h; simp at h
  · rcases hw : w.data with i | fl | wd <;> simp_all

theorem checkValueTypeWord_of_some (ek f : String) (values : List (WithLocation AFFValue))
    (id : Nat) (v : WithLocation AFFWord) (h : (checkValueTypeWord ek f values id).2 = some v) :
    checkValueTypeWord ek f values id = ([], some v) := by
  unfold checkValueTypeWord at h ⊢
  rcases hg : values.get? id with _ | w
  · rw [hg] at h; simp at h
  · rcases hw : w.data with i | fl | wd <;> simp_all

theorem checkValueTypeInt_of_none (ek f : String) (values : List (WithLocation AFFValue))
    (id : Nat) (hid : id < values.length) (h : (checkValueTypeInt ek f values id).2 = none) :
    ∃ err, checkValueTypeInt ek f values id = ([err], none) := by
  unfold checkValueTypeInt at h ⊢
  rcases hg : values.get? id with _ | w
  · exact absurd (List.get?_eq_none.mp hg) (by omega)
  · rcases hw : w.data with i | fl | wd <;> simp_all

theorem checkValueTypeFloat_of_none (ek f : String) (values : List (WithLocation AFFValue))
    (id : Nat) (hid : id < values.length) (h : (checkValueTypeFloat ek f values id).2 = none) :
    ∃ err, checkValueTypeFloat ek f values id = ([err], none) := by
  unfold checkValueTypeFloat at h ⊢
  rcases hg : values.get? id with _ | w
  · exact absurd (List.get?_eq_none.mp hg) (by omega)
  · rcases hw : w.data with i | fl | wd <;> simp_all

theorem checkValueTypeWord_of_none (ek f : String) (values : List (WithLocation AFFValue))
    (id : Nat) (hid : id < values.length) (h : (checkValueTypeWord ek f values id).2 = none) :
    ∃ err, checkValueTypeWord ek f values id = ([err], none) := by
  unfold checkValueTypeWord at h ⊢
  rcases hg : values.get? id with _ | w
  · exact absurd (List.get?_eq_none.mp hg) (by omega)
  · rcases hw : w.data with i | fl | wd <;> simp_all

theorem parseValue.trackId_of_some (ek f : String) (o : Option (WithLocation AFFInt))
    (t : WithLocation AFFTrackId) (h : (parseValue.trackId ek f o).2 = some t) :
    parseValue.trackId ek f o = ([], some t) ∧ 1 ≤ t.data.value ∧ t.data.value ≤ 4 ∧ o.isSome := by
  rcases o with _ | i
  · simp [parseValue.trackId] at h
  · by_cases hr : i.data.value < 1 ∨ i.data.value > 4
    · simp [parseValue.trackId, hr] at h
    · have ht : t = { data := { value := i.data.value }, location := i.location } := by
        simpa [parseValue.trackId, hr] using h.symm
      subst ht
      push_neg at hr
      refine ⟨by simp [parseValue.trackId, hr.1, hr.2], by simpa using hr.1, by simpa using hr.2, rfl⟩

theorem parseValue.trackId_of_none (ek f : String) (o : Option (WithLocation AFFInt))
    (h : (parseValue.trackId ek f o).2 = none) :
    (o = none ∧ parseValue.trackId ek f o = ([], none)) ∨
      ∃ err, parseValue.trackId ek f o = ([err], none) := by
  rcases o with _ | i
  · exact Or.inl ⟨rfl, rfl⟩
  · by_cases hr : i.data.value < 1 ∨ i.data.value > 4
    · exact Or.inr ⟨rangeError ek f trackIdsText i.location, by simp [parseValue.trackId, hr]⟩
    · simp [parseValue.trackId, hr] at h

theorem parseValue.colorId_of_some (ek f : String) (o : Option (WithLocation AFFInt))
    (t : WithLocation AFFColorId) (h : (parseValue.colorId ek f o).2 = some t) :
    parseValue.colorId ek f o = ([], some t) ∧ 0 ≤ t.data.value ∧ t.data.value ≤ 2 ∧ o.isSome := by
  rcases o with _ | i
  · simp [parseValue.colorId] at h
  · by_cases hr : i.data.value < 0 ∨ i.data.value > 2
    · simp [parseValue.colorId, hr] at h
    · have ht : t = { data := { value := i.data.value }, location := i.location } := by
        simpa [parseValue.colorId, hr] using h.symm
      subst ht
      push_neg at hr
      refine ⟨by simp [parseValue.colorId, hr.1, hr.2], by simpa using hr.1, by simpa using hr.2, rfl⟩

theorem parseValue.colorId_of_none (ek f : String) (o : Option (WithLocation AFFInt))
    (h : (parseValue.colorId ek f o).2 = none) :
    (o = none ∧ parseValue.colorId ek f o = ([], none)) ∨
      ∃ err, parseValue.colorId ek f o = ([err], none) := by
  rcases o with _ | i
  · exact Or.inl ⟨rfl, rfl⟩
  · by_cases hr : i.data.value < 0 ∨ i.data.value > 2
    · exact Or.inr ⟨rangeError ek f colorIdsText i.location, by simp [parseValue.colorId, hr]⟩
    · simp [parseValue.colorId, hr] at h

theorem parseValue.arcKind_of_some (ek f : String) (o : Option (WithLocation AFFWord))
    (t : WithLocation AFFArcKind) (h : (parseValue.arcKind ek f o).2 = some t) :
    parseValue.arcKind ek f o = ([], some t) ∧ t.data.value ∈ affArcKinds ∧ o.isSome := by
  rcases o with _ | w
  · simp [parseValue.arcKind] at h
  · by_cases hr : w.data.value ∈ affArcKinds
    · have ht : t = { data := { value := w.data.value }, location := w.location } := by
        simpa [parseValue.arcKind, hr] using h.symm
      subst ht
      exact ⟨by simp [parseValue.arcKind, hr], hr, rfl⟩
    · simp [parseValue.arcKind, hr] at h

theorem parseValue.arcKind_of_none (ek f : String) (o : Option (WithLocation AFFWord))
    (h : (parseValue.arcKind ek f o).2 = none) :
    (o = none ∧ parseValue.arcKind ek f o = ([], none)) ∨
      ∃ err, parseValue.arcKind ek f o = ([err], none) := by
  rcases o with _ | w
  · exact Or.inl ⟨rfl, rfl⟩
  · by_cases hr : w.data.value ∈ affArcKinds
    · simp [parseValue.arcKind, hr] at h
    · exact Or.inr ⟨rangeError ek f arcKindsText w.location, by simp [parseValue.arcKind, hr]⟩

theorem parseValue.effect_of_some (ek f : String) (o : Option (WithLocation AFFWord))
    (t : WithLocation AFFEffect) (h : (parseValue.effect ek f o).2 = some t) :
    parseValue.effect ek f o = ([], some t) ∧ t.data.value ∈ affEffects ∧ o.isSome := by
  rcases o with _ | w
  · simp [parseValue.effect] at h
  · by_cases hr : w.data.value ∈ affEffects
    · have ht : t = { data := { value := w.data.value }, location := w.location } := by
        simpa [parseValue.effect, hr] using h.symm
      subst ht
      exact ⟨by simp [parseValue.effect, hr], hr, rfl⟩
    · simp [parseValue.effect, hr] at h

theorem parseValue.effect_of_none (ek f : String) (o : Option (WithLocation AFFWord))
    (h : (parseValue.effect ek f o).2 = none) :
    (o = none ∧ parseValue.effect ek f o = ([], none)) ∨
      ∃ err, parseValue.effect ek f o = ([err], none) := by
  rcases o with _ | w
  · exact Or.inl ⟨rfl, rfl⟩
  · by_cases hr : w.data.value ∈ affEffects
    · simp [parseValue.effect, hr] at h
    · exact Or.inr ⟨rangeError ek f effectsText w.location, by simp [parseValue.effect, hr]⟩

theorem parseValue.bool_of_some (ek f : String) (o : Option (WithLocation AFFWord))
    (t : WithLocation AFFBool) (h : (parseValue.bool ek f o).2 = some t) :
    parseValue.bool ek f o = ([], some t) ∧ o.isSome := by
  rcases o with _ | w
  · simp [parseValue.bool] at h
  · by_cases hr : w.data.value ∈ affBools
    · have ht : t = { data := { value := w.data.value == "true" }, location := w.location } := by
        simpa [parseValue.bool, hr] using h.symm
      subst ht
      exact ⟨by simp [parseValue.bool, hr], rfl⟩
    · simp [parseValue.bool, hr] at h

theorem parseValue.bool_of_none (ek f : String) (o : Option (WithLocation AFFWord))
    (h : (parseValue.bool ek f o).2 = none) :
    (o = none ∧ parseValue.bool ek f o = ([], none)) ∨
      ∃ err, parseValue.bool ek f o = ([err], none) := by
  rcases o with _ | w
  · exact Or.inl ⟨rfl, rfl⟩
  · by_cases hr : w.data.value ∈ affBools
    · simp [parseValue.bool, hr] at h
    · exact Or.inr ⟨rangeError ek f boolsText w.location, by simp [parseValue.bool, hr]⟩

/-! Characterization lemmas for the event transformers. -/

theorem eventTransformer.tap_count_mismatch (values : List (WithLocation AFFValue))
    (vl : CstNodeLocation) (subs : Option (List (WithLocation AFFEvent) × CstNodeLocation))
    (h : values.length ≠ 2) :
    eventTransformer.tap values vl subs =
      (rejectSubevent "tap" subs ++ [countError "tap" 2 values.length vl], none) := by
  have hc : checkValuesCount "tap" 2 values vl = ([countError "tap" 2 values.length vl], false) := by
    simp [checkValuesCount, h]
  simp [eventTransformer.tap, hc]

theorem eventTransformer.tap_of_some (values : List (WithLocation AFFValue))
    (vl : CstNodeLocation) (subs : Option (List (WithLocation AFFEvent) × CstNodeLocation))
    (e : AFFTapEvent) (h : (eventTransformer.tap values vl subs).2 = some e) :
    eventTransformer.tap values vl subs = (rejectSubevent "tap" subs, some e) ∧
      values.length = 2 ∧
      (checkValueTypeInt "tap" "time" values 0).2 = some e.time ∧
      (parseValue.trackId "tap" "track-id" (checkValueTypeInt "tap" "track-id" values 1).2).2 =
        some e.trackId := by
  by_cases hlen : values.length = 2
  · have hc : checkValuesCount "tap" 2 values vl = ([], true) := by simp [checkValuesCount, hlen]
    rcases h1 : checkValueTypeInt "tap" "time" values 0 with ⟨E1, T1⟩
    rcases h2 : checkValueTypeInt "tap" "track-id" values 1 with ⟨E2, R2⟩
    rcases h3 : parseValue.trackId "tap" "track-id" R2 with ⟨E3, T3⟩
    simp only [eventTransformer.tap, hc, h1, h2, h3] at h ⊢
    rcases T1 with _ | t1 <;> rcases T3 with _ | t3
    · exact Option.noConfusion h
    · exact Option.noConfusion h
    · exact Option.noConfusion h
    · rcases Option.some.inj h with rfl
      have d1 := checkValueTypeInt_of_some "tap" "time" values 0 t1 (by rw [h1])
      have d3 := parseValue.trackId_of_some "tap" "track-id" R2 t3 (by rw [h3])
      rcases Option.isSome_iff_exists.mp d3.2.2.2 with ⟨i, rfl⟩
      have d2 := checkValueTypeInt_of_some "tap" "track-id" values 1 i (by rw [h2])
      have h31 := d3.1
      have hE1 : E1 = [] := by rw [h1] at d1; simpa using congrArg Prod.fst d1
      have hE2 : E2 = [] := by rw [h2] at d2; simpa using congrArg Prod.fst d2
      have hE3 : E3 = [] := by rw [h3] at h31; simpa using congrArg Prod.fst h31
      subst hE1 hE2 hE3
      simp [hlen]
  · rw [eventTransformer.tap_count_mismatch values vl subs hlen] at h
    simp at h

theorem eventTransformer.tap_of_none (values : List (WithLocation AFFValue))
    (vl : CstNodeLocation) (subs : Option (List (WithLocation AFFEvent) × CstNodeLocation))
    (h : (eventTransformer.tap values vl subs).2 = none) :
    ∃ extra, extra ≠ [] ∧
      eventTransformer.tap values vl subs = (rejectSubevent "tap" subs ++ extra, none) := by
  by_cases hlen : values.length = 2
  · have hc : checkValuesCount "tap" 2 values vl = ([], true) := by simp [checkValuesCount, hlen]
    rcases h1 : checkValueTypeInt "tap" "time" values 0 with ⟨E1, T1⟩
    rcases h2 : checkValueTypeInt "tap" "track-id" values 1 with ⟨E2, R2⟩
    rcases h3 : parseValue.trackId "tap" "track-id" R2 with ⟨E3, T3⟩
    have hne : E1 ++ E2 ++ E3 ≠ [] := by
      rcases T1 with _ | t1
      · rcases checkValueTypeInt_of_none "tap" "time" values 0 (by omega) (by rw [h1]) with ⟨err, he⟩
        rw [h1] at he
        have : E1 = [err] := by simpa using congrArg Prod.fst he
        simp [this]
      · rcases T3 with _ | t3
        · rcases parseValue.trackId_of_none "tap" "track-id" R2 (by rw [h3]) with hsilent | ⟨err, he⟩
          · rcases hsilent with ⟨rfl, -⟩
            rcases checkValueTypeInt_of_none "tap" "track-id" values 1 (by omega) (by rw [h2]) with
              ⟨err, he⟩
            rw [h2] at he
            have : E2 = [err] := by simpa using congrArg Prod.fst he
            simp [this]
          · rw [h3] at he
            have : E3 = [err] := by simpa using congrArg Prod.fst he
            simp [this]
        · simp only [eventTransformer.tap, hc, h1, h2, h3] at h
          exact Option.noConfusion h
    refine ⟨E1 ++ E2 ++ E3, hne, ?_⟩
    simp only [eventTransformer.tap, hc, h1, h2, h3] at h ⊢
    rcases T1 with _ | t1 <;> rcases T3 with _ | t3 <;> simp_all
  · exact ⟨[countError "tap" 2 values.length vl], by simp,
      eventTransformer.tap_count_mismatch values vl subs hlen⟩

theorem eventTransformer.hold_count_mismatch (values : List (WithLocation AFFValue))
    (vl : CstNodeLocation) (subs : Option (List (WithLocation AFFEvent) × CstNodeLocation))
    (tagLoc : CstNodeLocation) (h : values.length ≠ 3) :
    eventTransformer.hold values vl subs tagLoc =
      (rejectSubevent "hold" subs ++ [countError "hold" 3 values.length vl], none) := by
  have hc : checkValuesCount "hold" 3 values vl =
      ([countError "hold" 3 values.length vl], false) := by
    simp [checkValuesCount, h]
  simp [eventTransformer.hold, hc]

theorem eventTransformer.hold_of_some (values : List (WithLocation AFFValue))
    (vl : CstNodeLocation) (subs : Option (List (WithLocation AFFEvent) × CstNodeLocation))
    (tagLoc : CstNodeLocation) (e : AFFHoldEvent)
    (h : (eventTransformer.hold values vl subs tagLoc).2 = some e) :
    eventTransformer.hold values vl subs tagLoc = (rejectSubevent "hold" subs, some e) ∧
      values.length = 3 ∧
      (checkValueTypeInt "hold" "start" values 0).2 = some e.start ∧
      (checkValueTypeInt "hold" "end" values 1).2 = some e.endTime ∧
      (parseValue.trackId "hold" "track-id" (checkValueTypeInt "hold" "track-id" values 2).2).2 =
        some e.trackId ∧
      e.tagLocation = tagLoc := by
  by_cases hlen : values.length = 3
  · have hc : checkValuesCount "hold" 3 values vl = ([], true) := by simp [checkValuesCount, hlen]
    rcases h1 : checkValueTypeInt "hold" "start" values 0 with ⟨E1, T1⟩
    rcases h2 : checkValueTypeInt "hold" "end" values 1 with ⟨E2, T2⟩
    rcases h3 : checkValueTypeInt "hold" "track-id" values 2 with ⟨E3, R3⟩
    rcases h4 : parseValue.trackId "hold" "track-id" R3 with ⟨E4, T4⟩
    simp only [eventTransformer.hold, hc, h1, h2, h3, h4] at h ⊢
    rcases T1 with _ | t1 <;> rcases T2 with _ | t2 <;> rcases T4 with _ | t4 <;>
      try exact Option.noConfusion h
    rcases Option.some.inj h with rfl
    have d1 := checkValueTypeInt_of_some "hold" "start" values 0 t1 (by rw [h1])
    have d2 := checkValueTypeInt_of_some "hold" "end" values 1 t2 (by rw [h2])
    have d4 := parseValue.trackId_of_some "hold" "track-id" R3 t4 (by rw [h4])
    rcases Option.isSome_iff_exists.mp d4.2.2.2 with ⟨i, rfl⟩
    have d3 := checkValueTypeInt_of_some "hold" "track-id" values 2 i (by rw [h3])
    have h41 := d4.1
    have hE1 : E1 = [] := by rw [h1] at d1; simpa using congrArg Prod.fst d1
    have hE2 : E2 = [] := by rw [h2] at d2; simpa using congrArg Prod.fst d2
    have hE3 : E3 = [] := by rw [h3] at d3; simpa using congrArg Prod.fst d3
    have hE4 : E4 = [] := by rw [h4] at h41; simpa using congrArg Prod.fst h41
    subst hE1 hE2 hE3 hE4
    simp [hlen]
  · rw [eventTransformer.hold_count_mismatch values vl subs tagLoc hlen] at h
    simp at h

theorem eventTransformer.hold_of_none (values : List (WithLocation AFFValue))
    (vl : CstNodeLocation) (subs : Option (List (WithLocation AFFEvent) × CstNodeLocation))
    (tagLoc : CstNodeLocation) (h : (eventTransformer.hold values vl subs tagLoc).2 = none) :
    ∃ extra, extra ≠ [] ∧
      eventTransformer.hold values vl subs tagLoc = (rejectSubevent "hold" subs ++ extra, none) := by
  by_cases hlen : values.length = 3
  · have hc : checkValuesCount "hold" 3 values vl = ([], true) := by simp [checkValuesCount, hlen]
    rcases h1 : checkValueTypeInt "hold" "start" values 0 with ⟨E1, T1⟩
    rcases h2 : checkValueTypeInt "hold" "end" values 1 with ⟨E2, T2⟩
    rcases h3 : checkValueTypeInt "hold" "track-id" values 2 with ⟨E3, R3⟩
    rcases h4 : parseValue.trackId "hold" "track-id" R3 with ⟨E4, T4⟩
    have hne : E1 ++ E2 ++ E3 ++ E4 ≠ [] := by
      rcases T1 with _ | t1
      · rcases checkValueTypeInt_of_none "hold" "start" values 0 (by omega) (by rw [h1]) with
          ⟨err, he⟩
        rw [h1] at he
        have : E1 = [err] := by simpa using congrArg Prod.fst he
        simp [this]
      · rcases T2 with _ | t2
        · rcases checkValueTypeInt_of_none "hold" "end" values 1 (by omega) (by rw [h2]) with
            ⟨err, he⟩
          rw [h2] at he
          have : E2 = [err] := by simpa using congrArg Prod.fst he
          simp [this]
        · rcases T4 with _ | t4
          · rcases parseValue.trackId_of_none "hold" "track-id" R3 (by rw [h4]) with
              hsilent | ⟨err, he⟩
            · rcases hsilent with ⟨rfl, -⟩
              rcases checkValueTypeInt_of_none "hold" "track-id" values 2 (by omega)
                (by rw [h3]) with ⟨err, he⟩
              rw [h3] at he
              have : E3 = [err] := by simpa using congrArg Prod.fst he
              simp [this]
            · rw [h4] at he
              have : E4 = [err] := by simpa using congrArg Prod.fst he
              simp [this]
          · simp only [eventTransformer.hold, hc, h1, h2, h3, h4] at h
            exact Option.noConfusion h
    refine ⟨E1 ++ E2 ++ E3 ++ E4, hne, ?_⟩
    simp only [eventTransformer.hold, hc, h1, h2, h3, h4] at h ⊢
    rcases T1 with _ | t1 <;> rcases T2 with _ | t2 <;> rcases T4 with _ | t4 <;> simp_all
  · exact ⟨[countError "hold" 3 values.length vl], by simp,
      eventTransformer.hold_count_mismatch values vl subs tagLoc hlen⟩

theorem eventTransformer.arctap_count_mismatch (values : List (WithLocation AFFValue))
    (vl : CstNodeLocation) (subs : Option (List (WithLocation AFFEvent) × CstNodeLocation))
    (tagLoc : CstNodeLocation) (h : values.length ≠ 1) :
    eventTransformer.arctap values vl subs tagLoc =
      (rejectSubevent "arctap" subs ++ [countError "arctap" 1 values.length vl], none) := by
  have hc : checkValuesCount "arctap" 1 values vl =
      ([countError "arctap" 1 values.length vl], false) := by
    simp [checkValuesCount, h]
  simp [eventTransformer.arctap, hc]

theorem eventTransformer.arctap_of_some (values : List (WithLocation AFFValue))
    (vl : CstNodeLocation) (subs : Option (List (WithLocation AFFEvent) × CstNodeLocation))
    (tagLoc : CstNodeLocation) (e : AFFArctapEvent)
    (h : (eventTransformer.arctap values vl subs tagLoc).2 = some e) :
    eventTransformer.arctap values vl subs tagLoc = (rejectSubevent "arctap" subs, some e) ∧
      values.length = 1 ∧
      (checkValueTypeInt "arctap" "time" values 0).2 = some e.time ∧
      e.tagLocation = tagLoc := by
  by_cases hlen : values.length = 1
  · have hc : checkValuesCount "arctap" 1 values vl = ([], true) := by simp [checkValuesCount, hlen]
    rcases h1 : checkValueTypeInt "arctap" "time" values 0 with ⟨E1, T1⟩
    simp only [eventTransformer.arctap, hc, h1] at h ⊢
    rcases T1 with _ | t1
    · exact Option.noConfusion h
    · rcases Option.some.inj h with rfl
      have d1 := checkValueTypeInt_of_some "arctap" "time" values 0 t1 (by rw [h1])
      have hE1 : E1 = [] := by rw [h1] at d1; simpa using congrArg Prod.fst d1
      subst hE1
      simp [hlen]
  · rw [eventTransformer.arctap_count_mismatch values vl subs tagLoc hlen] at h
    simp at h

theorem eventTransformer.arctap_of_none (values : List (WithLocation AFFValue))
    (vl : CstNodeLocation) (subs : Option (List (WithLocation AFFEvent) × CstNodeLocation))
    (tagLoc : CstNodeLocation) (h : (eventTransformer.arctap values vl subs tagLoc).2 = none) :
    ∃ extra, extra ≠ [] ∧
      eventTransformer.arctap values vl subs tagLoc =
        (rejectSubevent "arctap" subs ++ extra, none) := by
  by_cases hlen : values.length = 1
  · have hc : checkValuesCount "arctap" 1 values vl = ([], true) := by simp [checkValuesCount, hlen]
    rcases h1 : checkValueTypeInt "arctap" "time" values 0 with ⟨E1, T1⟩
    have hne : E1 ≠ [] := by
      rcases T1 with _ | t1
      · rcases checkValueTypeInt_of_none "arctap" "time" values 0 (by omega) (by rw [h1]) with
          ⟨err, he⟩
        rw [h1] at he
        have : E1 = [err] := by simpa using congrArg Prod.fst he
        simp [this]
      · simp only [eventTransformer.arctap, hc, h1] at h
        exact Option.noConfusion h
    refine ⟨E1, hne, ?_⟩
    simp only [eventTransformer.arctap, hc, h1] at h ⊢
    rcases T1 with _ | t1 <;> simp_all
  · exact ⟨[countError "arctap" 1 values.length vl], by simp,
      eventTransformer.arctap_count_mismatch values vl subs tagLoc hlen⟩

theorem eventTransformer.timing_count_mismatch (values : List (WithLocation AFFValue))
    (vl : CstNodeLocation) (subs : Option (List (WithLocation AFFEvent) × CstNodeLocation))
    (tagLoc : CstNodeLocation) (h : values.length ≠ 3) :
    eventTransformer.timing values vl subs tagLoc =
      (rejectSubevent "timing" subs ++ [countError "timing" 3 values.length vl], none) := by
  have hc : checkValuesCount "timing" 3 values vl =
      ([countError "timing" 3 values.length vl], false) := by
    simp [checkValuesCount, h]
  simp [eventTransformer.timing, hc]

theorem eventTransformer.timing_of_some (values : List (WithLocation AFFValue))
    (vl : CstNodeLocation) (subs : Option (List (WithLocation AFFEvent) × CstNodeLocation))
    (tagLoc : CstNodeLocation) (e : AFFTimingEvent)
    (h : (eventTransformer.timing values vl subs tagLoc).2 = some e) :
    eventTransformer.timing values vl subs tagLoc = (rejectSubevent "timing" subs, some e) ∧
      values.length = 3 ∧
      (checkValueTypeInt "timing" "time" values 0).2 = some e.time ∧
      (checkValueTypeFloat "timing" "bpm" values 1).2 = some e.bpm ∧
      (checkValueTypeFloat "timing" "segment" values 2).2 = some e.segment ∧
      e.tagLocation = tagLoc := by
  by_cases hlen : values.length = 3
  · have hc : checkValuesCount "timing" 3 values vl = ([], true) := by simp [checkValuesCount, hlen]
    rcases h1 : checkValueTypeInt "timing" "time" values 0 with ⟨E1, T1⟩
    rcases h2 : checkValueTypeFloat "timing" "bpm" values 1 with ⟨E2, T2⟩
    rcases h3 : checkValueTypeFloat "timing" "segment" values 2 with ⟨E3, T3⟩
    simp only [eventTransformer.timing, hc, h1, h2, h3] at h ⊢
    rcases T1 with _ | t1 <;> rcases T2 with _ | t2 <;> rcases T3 with _ | t3 <;>
      try exact Option.noConfusion h
    rcases Option.some.inj h with rfl
    have d1 := checkValueTypeInt_of_some "timing" "time" values 0 t1 (by rw [h1])
    have d2 := checkValueTypeFloat_of_some "timing" "bpm" values 1 t2 (by rw [h2])
    have d3 := checkValueTypeFloat_of_some "timing" "segment" values 2 t3 (by rw [h3])
    have hE1 : E1 = [] := by rw [h1] at d1; simpa using congrArg Prod.fst d1
    have hE2 : E2 = [] := by rw [h2] at d2; simpa using congrArg Prod.fst d2
    have hE3 : E3 = [] := by rw [h3] at d3; simpa using congrArg Prod.fst d3
    subst hE1 hE2 hE3
    simp [hlen]
  · rw [eventTransformer.timing_count_mismatch values vl subs tagLoc hlen] at h
    simp at h

theorem eventTransformer.timing_of_none (values : List (WithLocation AFFValue))
    (vl : CstNodeLocation) (subs : Option (List (WithLocation AFFEvent) × CstNodeLocation))
    (tagLoc : CstNodeLocation) (h : (eventTransformer.timing values vl subs tagLoc).2 = none) :
    ∃ extra, extra ≠ [] ∧
      eventTransformer.timing values vl subs tagLoc =
        (rejectSubevent "timing" subs ++ extra, none) := by
  by_cases hlen : values.length = 3
  · have hc : checkValuesCount "timing" 3 values vl = ([], true) := by simp [checkValuesCount, hlen]
    rcases h1 : checkValueTypeInt "timing" "time" values 0 with ⟨E1, T1⟩
    rcases h2 : checkValueTypeFloat "timing" "bpm" values 1 with ⟨E2, T2⟩
    rcases h3 : checkValueTypeFloat "timing" "segment" values 2 with ⟨E3, T3⟩
    have hne : E1 ++ E2 ++ E3 ≠ [] := by
      rcases T1 with _ | t1
      · rcases checkValueTypeInt_of_none "timing" "time" values 0 (by omega) (by rw [h1]) with
          ⟨err, he⟩
        rw [h1] at he
        have : E1 = [err] := by simpa using congrArg Prod.fst he
        simp [this]
      · rcases T2 with _ | t2
        · rcases checkValueTypeFloat_of_none "timing" "bpm" values 1 (by omega) (by rw [h2]) with
            ⟨err, he⟩
          rw [h2] at he
          have : E2 = [err] := by simpa using congrArg Prod.fst he
          simp [this]
        · rcases T3 with _ | t3
          · rcases checkValueTypeFloat_of_none "timing" "segment" values 2 (by omega)
              (by rw [h3]) with ⟨err, he⟩
            rw [h3] at he
            have : E3 = [err] := by simpa using congrArg Prod.fst he
            simp [this]
          · simp only [eventTransformer.timing, hc, h1, h2, h3] at h
            exact Option.noConfusion h
    refine ⟨E1 ++ E2 ++ E3, hne, ?_⟩
    simp only [eventTransformer.timing, hc, h1, h2, h3] at h ⊢
    rcases T1 with _ | t1 <;> rcases T2 with _ | t2 <;> rcases T3 with _ | t3 <;> simp_all
  · exact ⟨[countError "timing" 3 values.length vl], by simp,
      eventTransformer.timing_count_mismatch values vl subs tagLoc hlen⟩

/-- The sub-event diagnostics an `arc` event emits on its success path:
`transformArcSubevents` runs only when a subevents clause is present. -/
def arcSubErrs (subs : Option (List (WithLocation AFFEvent) × CstNodeLocation)) : List AFFError :=
  match subs with
  | some (s, _) => (collectArctaps s).1
  | none => []

/-- The `arctaps` field an `arc` event stores on its success path. -/
def arcSubArctaps (subs : Option (List (WithLocation AFFEvent) × CstNodeLocation)) :
    Option (WithLocation (List (WithLocation AFFArctapEvent))) :=
  match subs with
  | some (s, l) => some { data := (collectArctaps s).2, location := l }
  | none => none

theorem eventTransformer.arc_count_mismatch (values : List (WithLocation AFFValue))
    (vl : CstNodeLocation) (subs : Option (List (WithLocation AFFEvent) × CstNodeLocation))
    (tagLoc : CstNodeLocation) (h : values.length ≠ 10) :
    eventTransformer.arc values vl subs tagLoc =
      ([countError "arc" 10 values.length vl], none) := by
  have hc : checkValuesCount "arc" 10 values vl =
      ([countError "arc" 10 values.length vl], false) := by
    simp [checkValuesCount, h]
  simp [eventTransformer.arc, hc]

theorem eventTransformer.arc_of_some (values : List (WithLocation AFFValue))
    (vl : CstNodeLocation) (subs : Option (List (WithLocation AFFEvent) × CstNodeLocation))
    (tagLoc : CstNodeLocation) (e : AFFArcEvent)
    (h : (eventTransformer.arc values vl subs tagLoc).2 = some e) :
    eventTransformer.arc values vl subs tagLoc = (arcSubErrs subs, some e) ∧
      values.length = 10 ∧
      (checkValueTypeInt "arc" "start" values 0).2 = some e.start ∧
      (checkValueTypeInt "arc" "end" values 1).2 = some e.endTime ∧
      (checkValueTypeFloat "arc" "x-start" values 2).2 = some e.xStart ∧
      (checkValueTypeFloat "arc" "x-end" values 3).2 = some e.xEnd ∧
      (parseValue.arcKind "arc" "arc-kind" (checkValueTypeWord "arc" "arc-kind" values 4).2).2 =
        some e.arcKind ∧
      (checkValueTypeFloat "arc" "y-start" values 5).2 = some e.yStart ∧
      (checkValueTypeFloat "arc" "y-end" values 6).2 = some e.yEnd ∧
      (parseValue.colorId "arc" "color-id" (checkValueTypeInt "arc" "color-id" values 7).2).2 =
        some e.colorId ∧
      (parseValue.effect "arc" "effect" (checkValueTypeWord "arc" "effect" values 8).2).2 =
        some e.effect ∧
      (parseValue.bool "arc" "is-line" (checkValueTypeWord "arc" "is-line" values 9).2).2 =
        some e.isLine ∧
      e.arctaps = arcSubArctaps subs ∧
      e.tagLocation = tagLoc := by
  by_cases hlen : values.length = 10
  · have hc : checkValuesCount "arc" 10 values vl = ([], true) := by simp [checkValuesCount, hlen]
    rcases h1 : checkValueTypeInt "arc" "start" values 0 with ⟨E1, T1⟩
    rcases h2 : checkValueTypeInt "arc" "end" values 1 with ⟨E2, T2⟩
    rcases h3 : checkValueTypeFloat "arc" "x-start" values 2 with ⟨E3, T3⟩
    rcases h4 : checkValueTypeFloat "arc" "x-end" values 3 with ⟨E4, T4⟩
    rcases h5 : checkValueTypeWord "arc" "arc-kind" values 4 with ⟨E5, R5⟩
    rcases h6 : parseValue.arcKind "arc" "arc-kind" R5 with ⟨E6, T6⟩
    rcases h7 : checkValueTypeFloat "arc" "y-start" values 5 with ⟨E7, T7⟩
    rcases h8 : checkValueTypeFloat "arc" "y-end" values 6 with ⟨E8, T8⟩
    rcases h9 : checkValueTypeInt "arc" "color-id" values 7 with ⟨E9, R9⟩
    rcases h10 : parseValue.colorId "arc" "color-id" R9 with ⟨E10, T10⟩
    rcases h11 : checkValueTypeWord "arc" "effect" values 8 with ⟨E11, R11⟩
    rcases h12 : parseValue.effect "arc" "effect" R11 with ⟨E12, T12⟩
    rcases h13 : checkValueTypeWord "arc" "is-line" values 9 with ⟨E13, R13⟩
    rcases h14 : parseValue.bool "arc" "is-line" R13 with ⟨E14, T14⟩
    simp only [eventTransformer.arc, hc, h1, h2, h3, h4, h5, h6, h7, h8, h9, h10, h11, h12,
      h13, h14] at h ⊢
    rcases T1 with _ | t1
    · exact Option.noConfusion h
    rcases T2 with _ | t2
    · exact Option.noConfusion h
    rcases T3 with _ | t3
    · exact Option.noConfusion h
    rcases T4 with _ | t4
    · exact Option.noConfusion h
    rcases T6 with _ | t6
    · exact Option.noConfusion h
    rcases T7 with _ | t7
    · exact Option.noConfusion h
    rcases T8 with _ | t8
    · exact Option.noConfusion h
    rcases T10 with _ | t10
    · exact Option.noConfusion h
    rcases T12 with _ | t12
    · exact Option.noConfusion h
    rcases T14 with _ | t14
    · exact Option.noConfusion h
    rcases Option.some.inj h with rfl
    have d1 := checkValueTypeInt_of_some "arc" "start" values 0 t1 (by rw [h1])
    have d2 := checkValueTypeInt_of_some "arc" "end" values 1 t2 (by rw [h2])
    have d3 := checkValueTypeFloat_of_some "arc" "x-start" values 2 t3 (by rw [h3])
    have d4 := checkValueTypeFloat_of_some "arc" "x-end" values 3 t4 (by rw [h4])
    have d6 := parseValue.arcKind_of_some "arc" "arc-kind" R5 t6 (by rw [h6])
    rcases Option.isSome_iff_exists.mp d6.2.2 with ⟨w5, rfl⟩
    have d5 := checkValueTypeWord_of_some "arc" "arc-kind" values 4 w5 (by rw [h5])
    have d7 := checkValueTypeFloat_of_some "arc" "y-start" values 5 t7 (by rw [h7])
    have d8 := checkValueTypeFloat_of_some "arc" "y-end" values 6 t8 (by rw [h8])
    have d10 := parseValue.colorId_of_some "arc" "color-id" R9 t10 (by rw [h10])
    rcases Option.isSome_iff_exists.mp d10.2.2.2 with ⟨i9, rfl⟩
    have d9 := checkValueTypeInt_of_some "arc" "color-id" values 7 i9 (by rw [h9])
    have d12 := parseValue.effect_of_some "arc" "effect" R11 t12 (by rw [h12])
    rcases Option.isSome_iff_exists.mp d12.2.2 with ⟨w11, rfl⟩
    have d11 := checkValueTypeWord_of_some "arc" "effect" values 8 w11 (by rw [h11])
    have d14 := parseValue.bool_of_some "arc" "is-line" R13 t14 (by rw [h14])
    rcases Option.isSome_iff_exists.mp d14.2 with ⟨w13, rfl⟩
    have d13 := checkValueTypeWord_of_some "arc" "is-line" values 9 w13 (by rw [h13])
    have h61 := d6.1
    have h101 := d10.1
    have h121 := d12.1
    have h141 := d14.1
    have hE1 : E1 = [] := by rw [h1] at d1; simpa using congrArg Prod.fst d1
    have hE2 : E2 = [] := by rw [h2] at d2; simpa using congrArg Prod.fst d2
    have hE3 : E3 = [] := by rw [h3] at d3; simpa using congrArg Prod.fst d3
    have hE4 : E4 = [] := by rw [h4] at d4; simpa using congrArg Prod.fst d4
    have hE5 : E5 = [] := by rw [h5] at d5; simpa using congrArg Prod.fst d5
    have hE6 : E6 = [] := by rw [h6] at h61; simpa using congrArg Prod.fst h61
    have hE7 : E7 = [] := by rw [h7] at d7; simpa using congrArg Prod.fst d7
    have hE8 : E8 = [] := by rw [h8] at d8; simpa using congrArg Prod.fst d8
    have hE9 : E9 = [] := by rw [h9] at d9; simpa using congrArg Prod.fst d9
    have hE10 : E10 = [] := by rw [h10] at h101; simpa using congrArg Prod.fst h101
    have hE11 : E11 = [] := by rw [h11] at d11; simpa using congrArg Prod.fst d11
    have hE12 : E12 = [] := by rw [h12] at h121; simpa using congrArg Prod.fst h121
    have hE13 : E13 = [] := by rw [h13] at d13; simpa using congrArg Prod.fst d13
    have hE14 : E14 = [] := by rw [h14] at h141; simpa using congrArg Prod.fst h141
    subst hE1 hE2 hE3 hE4 hE5 hE6 hE7 hE8 hE9 hE10 hE11 hE12 hE13 hE14
    rcases subs with _ | ⟨s, sl⟩
    · simp [hlen, arcSubErrs, arcSubArctaps]
    · rcases hca : collectArctaps s with ⟨es, ars⟩
      simp [hlen, arcSubErrs, arcSubArctaps, transformArcSubevents, hca]
  · rw [eventTransformer.arc_count_mismatch values vl subs tagLoc hlen] at h
    simp at h

theorem eventTransformer.arc_of_none (values : List (WithLocation AFFValue))
    (vl : CstNodeLocation) (subs : Option (List (WithLocation AFFEvent) × CstNodeLocation))
    (tagLoc : CstNodeLocation) (h : (eventTransformer.arc values vl subs tagLoc).2 = none) :
    ∃ extra, extra ≠ [] ∧ eventTransformer.arc values vl subs tagLoc = (extra, none) := by
  by_cases hlen : values.length = 10
  · have hc : checkValuesCount "arc" 10 values vl = ([], true) := by simp [checkValuesCount, hlen]
    rcases h1 : checkValueTypeInt "arc" "start" values 0 with ⟨E1, T1⟩
    rcases h2 : checkValueTypeInt "arc" "end" values 1 with ⟨E2, T2⟩
    rcases h3 : checkValueTypeFloat "arc" "x-start" values 2 with ⟨E3, T3⟩
    rcases h4 : checkValueTypeFloat "arc" "x-end" values 3 with ⟨E4, T4⟩
    rcases h5 : checkValueTypeWord "arc" "arc-kind" values 4 with ⟨E5, R5⟩
    rcases h6 : parseValue.arcKind "arc" "arc-kind" R5 with ⟨E6, T6⟩
    rcases h7 : checkValueTypeFloat "arc" "y-start" values 5 with ⟨E7, T7⟩
    rcases h8 : checkValueTypeFloat "arc" "y-end" values 6 with ⟨E8, T8⟩
    rcases h9 : checkValueTypeInt "arc" "color-id" values 7 with ⟨E9, R9⟩
    rcases h10 : parseValue.colorId "arc" "color-id" R9 with ⟨E10, T10⟩
    rcases h11 : checkValueTypeWord "arc" "effect" values 8 with ⟨E11, R11⟩
    rcases h12 : parseValue.effect "arc" "effect" R11 with ⟨E12, T12⟩
    rcases h13 : checkValueTypeWord "arc" "is-line" values 9 with ⟨E13, R13⟩
    rcases h14 : parseValue.bool "arc" "is-line" R13 with ⟨E14, T14⟩
    have hne : E1 ++ E2 ++ E3 ++ E4 ++ E5 ++ E6 ++ E7 ++ E8 ++ E9 ++ E10 ++ E11 ++ E12 ++
        E13 ++ E14 ≠ [] := by
      rcases T1 with _ | t1
      · rcases checkValueTypeInt_of_none "arc" "start" values 0 (by omega) (by rw [h1]) with
          ⟨err, he⟩
        rw [h1] at he
        have : E1 = [err] := by simpa using congrArg Prod.fst he
        simp [this]
      rcases T2 with _ | t2
      · rcases checkValueTypeInt_of_none "arc" "end" values 1 (by omega) (by rw [h2]) with
          ⟨err, he⟩
        rw [h2] at he
        have : E2 = [err] := by simpa using congrArg Prod.fst he
        simp [this]
      rcases T3 with _ | t3
      · rcases checkValueTypeFloat_of_none "arc" "x-start" values 2 (by omega) (by rw [h3]) with
          ⟨err, he⟩
        rw [h3] at he
        have : E3 = [err] := by simpa using congrArg Prod.fst he
        simp [this]
      rcases T4 with _ | t4
      · rcases checkValueTypeFloat_of_none "arc" "x-end" values 3 (by omega) (by rw [h4]) with
          ⟨err, he⟩
        rw [h4] at he
        have : E4 = [err] := by simpa using congrArg Prod.fst he
        simp [this]
      rcases T6 with _ | t6
      · rcases parseValue.arcKind_of_none "arc" "arc-kind" R5 (by rw [h6]) with hsilent | ⟨err, he⟩
        · rcases hsilent with ⟨rfl, -⟩
          rcases checkValueTypeWord_of_none "arc" "arc-kind" values 4 (by omega) (by rw [h5]) with
            ⟨err, he⟩
          rw [h5] at he
          have : E5 = [err] := by simpa using congrArg Prod.fst he
          simp [this]
        · rw [h6] at he
          have : E6 = [err] := by simpa using congrArg Prod.fst he
          simp [this]
      rcases T7 with _ | t7
      · rcases checkValueTypeFloat_of_none "arc" "y-start" values 5 (by omega) (by rw [h7]) with
          ⟨err, he⟩
        rw [h7] at he
        have : E7 = [err] := by simpa using congrArg Prod.fst he
        simp [this]
      rcases T8 with _ | t8
      · rcases checkValueTypeFloat_of_none "arc" "y-end" values 6 (by omega) (by rw [h8]) with
          ⟨err, he⟩
        rw [h8] at he
        have : E8 = [err] := by simpa using congrArg Prod.fst he
        simp [this]
      rcases T10 with _ | t10
      · rcases parseValue.colorId_of_none "arc" "color-id" R9 (by rw [h10]) with hsilent | ⟨err, he⟩
        · rcases hsilent with ⟨rfl, -⟩
          rcases checkValueTypeInt_of_none "arc" "color-id" values 7 (by omega) (by rw [h9]) with
            ⟨err, he⟩
          rw [h9] at he
          have : E9 = [err] := by simpa using congrArg Prod.fst he
          simp [this]
        · rw [h10] at he
          have : E10 = [err] := by simpa using congrArg Prod.fst he
          simp [this]
      rcases T12 with _ | t12
      · rcases parseValue.effect_of_none "arc" "effect" R11 (by rw [h12]) with hsilent | ⟨err, he⟩
        · rcases hsilent with ⟨rfl, -⟩
          rcases checkValueTypeWord_of_none "arc" "effect" values 8 (by omega) (by rw [h11]) with
            ⟨err, he⟩
          rw [h11] at he
          have : E11 = [err] := by simpa using congrArg Prod.fst he
          simp [this]
        · rw [h12] at he
          have : E12 = [err] := by simpa using congrArg Prod.fst he
          simp [this]
      rcases T14 with _ | t14
      · rcases parseValue.bool_of_none "arc" "is-line" R13 (by rw [h14]) with hsilent | ⟨err, he⟩
        · rcases hsilent with ⟨rfl, -⟩
          rcases checkValueTypeWord_of_none "arc" "is-line" values 9 (by omega) (by rw [h13]) with
            ⟨err, he⟩
          rw [h13] at he
          have : E13 = [err] := by simpa using congrArg Prod.fst he
          simp [this]
        · rw [h14] at he
          have : E14 = [err] := by simpa using congrArg Prod.fst he
          simp [this]
      simp only [eventTransformer.arc, hc, h1, h2, h3, h4, h5, h6, h7, h8, h9, h10, h11, h12,
        h13, h14] at h
      exact Option.noConfusion h
    refine ⟨E1 ++ E2 ++ E3 ++ E4 ++ E5 ++ E6 ++ E7 ++ E8 ++ E9 ++ E10 ++ E11 ++ E12 ++
      E13 ++ E14, hne, ?_⟩
    simp only [eventTransformer.arc, hc, h1, h2, h3, h4, h5, h6, h7, h8, h9, h10, h11, h12,
      h13, h14] at h ⊢
    rcases T1 with _ | t1
    · simp
    rcases T2 with _ | t2
    · simp
    rcases T3 with _ | t3
    · simp
    rcases T4 with _ | t4
    · simp
    rcases T6 with _ | t6
    · simp
    rcases T7 with _ | t7
    · simp
    rcases T8 with _ | t8
    · simp
    rcases T10 with _ | t10
    · simp
    rcases T12 with _ | t12
    · simp
    rcases T14 with _ | t14
    · simp
    exact Option.noConfusion h
  · exact ⟨[countError "arc" 10 values.length vl], by simp,
      eventTransformer.arc_count_mismatch values vl subs tagLoc hlen⟩

theorem collectArctaps_spec (subs : List (WithLocation AFFEvent)) :
    collectArctaps subs =
      (subs.filterMap (fun se =>
         match se.data with
         | .arctap _ => none
         | ev => some (subeventTypeError ev.kindName se.location)),
       subs.filterMap (fun se =>
         match se.data with
         | .arctap a => some { data := a, location := se.location }
         | _ => none)) := by
  induction subs with
  | nil => rfl
  | cons se rest ih =>
    rcases hca : collectArctaps rest with ⟨errs, ars⟩
    rw [hca] at ih
    simp only [Prod.mk.injEq] at ih
    rcases hd : se.data with te | tpe | he | ae | a <;>
      simp [collectArctaps, hca, List.filterMap_cons, hd, ih.1, ih.2]

/-! Machinery for the metadata fold: the map after processing a list of
entries, the duplicate errors it pushes, and first-occurrence lookups. -/

/-- The stored map entry for a metadata entry node. -/
def metadataEntryValue (n : MetadataEntryNode) : WithLocation AFFMetadataEntry :=
  { data := visitMetadataEntry n, location := n.location }

/-- The map component of the metadata fold, processed from state `m`. -/
def mapFold (m : List (String × WithLocation AFFMetadataEntry)) :
    List MetadataEntryNode → List (String × WithLocation AFFMetadataEntry)
  | [] => m
  | n :: rest =>
    match mapGet? m n.key.image with
    | some _ => mapFold m rest
    | none => mapFold (m ++ [(n.key.image, metadataEntryValue n)]) rest

/-- The duplicate-key errors the metadata fold pushes, from state `m`. -/
def dupErrs (m : List (String × WithLocation AFFMetadataEntry)) :
    List MetadataEntryNode → List AFFError
  | [] => []
  | n :: rest =>
    match mapGet? m n.key.image with
    | some prev =>
      duplicateKeyError n.key.image n.key.location prev.data.key.location :: dupErrs m rest
    | none => dupErrs (m ++ [(n.key.image, metadataEntryValue n)]) rest

/-- First entry node with a given key, if any. -/
def firstWith (entries : List MetadataEntryNode) (k : String) : Option MetadataEntryNode :=
  entries.find? (fun n => n.key.image == k)

theorem metadata_foldl_eq (l : List MetadataEntryNode) :
    ∀ (m : List (String × WithLocation AFFMetadataEntry)) (e : List AFFError),
      l.foldl metadataStep (m, e) = (mapFold m l, e ++ dupErrs m l) := by
  induction l with
  | nil => intro m e; simp [mapFold, dupErrs]
  | cons n rest ih =>
    intro m e
    rcases hg : mapGet? m n.key.image with _ | prev <;>
      simp [metadataStep, visitMetadataEntry, locationFromToken, metadataEntryValue, hg,
        mapFold, dupErrs, ih]

theorem mapGet?_append {α : Type} (m1 m2 : List (String × α)) (j : String) :
    mapGet? (m1 ++ m2) j =
      match mapGet? m1 j with
      | some w => some w
      | none => mapGet? m2 j := by
  induction m1 with
  | nil => simp [mapGet?]
  | cons p rest ih =>
    by_cases hk : p.1 = j <;> simp [mapGet?, List.find?_cons, hk] <;> simpa [mapGet?] using ih

theorem firstWith_append (l1 l2 : List MetadataEntryNode) (k : String) :
    firstWith (l1 ++ l2) k =
      match firstWith l1 k with
      | some x => some x
      | none => firstWith l2 k := by
  induction l1 with
  | nil => simp [firstWith]
  | cons n rest ih =>
    by_cases hk : n.key.image = k <;> simp [firstWith, List.find?_cons, hk] <;>
      simpa [firstWith] using ih

theorem mapFold_append (l1 l2 : List MetadataEntryNode) :
    ∀ m, mapFold m (l1 ++ l2) = mapFold (mapFold m l1) l2 := by
  induction l1 with
  | nil => intro m; simp [mapFold]
  | cons n rest ih =>
    intro m
    rcases hg : mapGet? m n.key.image with _ | prev <;> simp [mapFold, hg, ih]

theorem mapGet?_mapFold (l : List MetadataEntryNode) :
    ∀ (m : List (String × WithLocation AFFMetadataEntry)) (k : String),
      mapGet? (mapFold m l) k =
        match mapGet? m k with
        | some v => some v
        | none => (firstWith l k).map metadataEntryValue := by
  induction l with
  | nil =>
    intro m k
    rcases hx : mapGet? m k with _ | v <;> simp [mapFold, firstWith, hx]
  | cons n rest ih =>
    intro m k
    rcases hg : mapGet? m n.key.image with _ | prev
    · by_cases hk : n.key.image = k
      · subst hk
        rw [mapFold, hg, ih]
        rw [mapGet?_append, hg]
        have hsingle : mapGet? [(n.key.image, metadataEntryValue n)] n.key.image =
            some (metadataEntryValue n) := by simp [mapGet?]
        rw [hsingle]
        simp [firstWith, List.find?_cons]
      · rw [mapFold, hg, ih]
        rw [mapGet?_append]
        rcases hx : mapGet? m k with _ | v
        · have hsingle : mapGet? [(n.key.image, metadataEntryValue n)] k = none := by
            simp [mapGet?, hk]
          rw [hsingle]
          simp [firstWith, List.find?_cons, hk]
        · rfl
    · by_cases hk : n.key.image = k
      · subst hk
        rw [mapFold, hg, ih, hg]
      · rw [mapFold, hg, ih]
        rcases hx : mapGet? m k with _ | v
        · simp [firstWith, List.find?_cons, hk]
        · rfl

theorem mapGet?_eq_none_iff {α : Type} (m : List (String × α)) (k : String) :
    mapGet? m k = none ↔ k ∉ m.map Prod.fst := by
  unfold mapGet?
  rw [Option.map_eq_none', List.find?_eq_none]
  simp only [List.mem_map, beq_iff_eq, Prod.exists, not_exists, not_and, Prod.forall]

theorem mapFold_keys_nodup (l : List MetadataEntryNode) :
    ∀ m, (m.map Prod.fst).Nodup → ((mapFold m l).map Prod.fst).Nodup := by
  induction l with
  | nil => intro m h; simpa [mapFold] using h
  | cons n rest ih =>
    intro m h
    rcases hg : mapGet? m n.key.image with _ | prev
    · rw [mapFold, hg]
      apply ih
      have hnotin : n.key.image ∉ m.map Prod.fst := (mapGet?_eq_none_iff m _).mp hg
      have : (m.map Prod.fst ++ [n.key.image]).Nodup := by
        rw [List.nodup_append]
        refine ⟨h, List.nodup_singleton _, ?_⟩
        intro a ha hb
        simp at hb
        exact hnotin (hb ▸ ha)
      simpa [List.map_append] using this
    · rw [mapFold, hg]
      exact ih m h

theorem dupErrs_length (l : List MetadataEntryNode) :
    ∀ m, (dupErrs m l).length + (mapFold m l).length = m.length + l.length := by
  induction l with
  | nil => intro m; simp [dupErrs, mapFold]
  | cons n rest ih =>
    intro m
    rcases hg : mapGet? m n.key.image with _ | prev
    · have h2 := ih (m ++ [(n.key.image, metadataEntryValue n)])
      simp [dupErrs, mapFold, hg] at h2 ⊢
      omega
    · have h2 := ih m
      simp [dupErrs, mapFold, hg] at h2 ⊢
      omega

theorem dupErrs_cites_first (rest : List MetadataEntryNode) :
    ∀ pre : List MetadataEntryNode, ∀ e ∈ dupErrs (mapFold [] pre) rest,
      ∃ k dloc n1, firstWith (pre ++ rest) k = some n1 ∧
        e = duplicateKeyError k dloc n1.key.location := by
  induction rest with
  | nil => intro pre e he; simp [dupErrs] at he
  | cons n rest' ih =>
    intro pre e he
    rcases hg : mapGet? (mapFold [] pre) n.key.image with _ | prev
    · rw [dupErrs, hg] at he
      have hm : mapFold [] (pre ++ [n]) =
          mapFold [] pre ++ [(n.key.image, metadataEntryValue n)] := by
        rw [mapFold_append]
        simp [mapFold, hg]
      rw [← hm] at he
      rcases ih (pre ++ [n]) e he with ⟨k, dloc, n1, hfw, he'⟩
      refine ⟨k, dloc, n1, ?_, he'⟩
      rw [List.append_assoc] at hfw
      simpa using hfw
    · rw [dupErrs, hg] at he
      rcases List.mem_cons.mp he with rfl | htail
      · have hfirst : (firstWith pre n.key.image).map metadataEntryValue = some prev := by
          have h0 := mapGet?_mapFold pre [] n.key.image
          rw [hg] at h0
          simpa [mapGet?] using h0.symm
        rcases Option.map_eq_some'.mp hfirst with ⟨n1, hn1, hconv⟩
        refine ⟨n.key.image, n.key.location, n1, ?_, ?_⟩
        · rw [firstWith_append, hn1]
        · have hloc : prev.data.key.location = n1.key.location := by
            rw [← hconv]
            simp [metadataEntryValue, visitMetadataEntry, locationFromToken]
          rw [hloc]
      · have hm : mapFold [] (pre ++ [n]) = mapFold [] pre := by
          rw [mapFold_append]
          simp [mapFold, hg]
        rw [← hm] at htail
        rcases ih (pre ++ [n]) e htail with ⟨k, dloc, n1, hfw, he'⟩
        refine ⟨k, dloc, n1, ?_, he'⟩
        rw [List.append_assoc] at hfw
        simpa using hfw

theorem visitMetadata_eq (node : MetadataNode) :
    visitMetadata node = (dupErrs [] node.metadataEntry,
      { data := mapFold [] node.metadataEntry,
        metaEndLocation := locationFromToken node.metaEnd }) := by
  simp [visitMetadata, metadata_foldl_eq]

theorem visitMetadata_cites_first (node : MetadataNode) :
    ∀ e ∈ (visitMetadata node).1, ∃ k dloc n1,
      firstWith node.metadataEntry k = some n1 ∧
        e = duplicateKeyError k dloc n1.key.location := by
  intro e he
  rw [visitMetadata_eq] at he
  have hbase : dupErrs (mapFold [] []) node.metadataEntry = dupErrs [] node.metadataEntry := rfl
  have := dupErrs_cites_first node.metadataEntry [] e (by rw [hbase]; exact he)
  simpa using this

/-! Subevent-clause shift lemmas: for the four kinds that reject subevents,
the sub-event clause only prepends the rejection diagnostic. -/

theorem eventTransformer.tap_subs_shift (values : List (WithLocation AFFValue))
    (vl : CstNodeLocation) (subs : Option (List (WithLocation AFFEvent) × CstNodeLocation)) :
    eventTransformer.tap values vl subs =
      (rejectSubevent "tap" subs ++ (eventTransformer.tap values vl none).1,
       (eventTransformer.tap values vl none).2) := by
  rcases hc : checkValuesCount "tap" 2 values vl with ⟨ec, b⟩
  rcases h1 : checkValueTypeInt "tap" "time" values 0 with ⟨E1, T1⟩
  rcases h2 : checkValueTypeInt "tap" "track-id" values 1 with ⟨E2, R2⟩
  rcases h3 : parseValue.trackId "tap" "track-id" R2 with ⟨E3, T3⟩
  cases b <;> simp only [eventTransformer.tap, hc, h1, h2, h3] <;>
    try rcases T1 with _ | t1 <;> rcases T3 with _ | t3
  all_goals simp [rejectSubevent]

theorem eventTransformer.hold_subs_shift (values : List (WithLocation AFFValue))
    (vl : CstNodeLocation) (subs : Option (List (WithLocation AFFEvent) × CstNodeLocation))
    (tagLoc : CstNodeLocation) :
    eventTransformer.hold values vl subs tagLoc =
      (rejectSubevent "hold" subs ++ (eventTransformer.hold values vl none tagLoc).1,
       (eventTransformer.hold values vl none tagLoc).2) := by
  rcases hc : checkValuesCount "hold" 3 values vl with ⟨ec, b⟩
  rcases h1 : checkValueTypeInt "hold" "start" values 0 with ⟨E1, T1⟩
  rcases h2 : checkValueTypeInt "hold" "end" values 1 with ⟨E2, T2⟩
  rcases h3 : checkValueTypeInt "hold" "track-id" values 2 with ⟨E3, R3⟩
  rcases h4 : parseValue.trackId "hold" "track-id" R3 with ⟨E4, T4⟩
  cases b <;> simp only [eventTransformer.hold, hc, h1, h2, h3, h4] <;>
    try rcases T1 with _ | t1 <;> rcases T2 with _ | t2 <;> rcases T4 with _ | t4
  all_goals simp [rejectSubevent]

theorem eventTransformer.arctap_subs_shift (values : List (WithLocation AFFValue))
    (vl : CstNodeLocation) (subs : Option (List (WithLocation AFFEvent) × CstNodeLocation))
    (tagLoc : CstNodeLocation) :
    eventTransformer.arctap values vl subs tagLoc =
      (rejectSubevent "arctap" subs ++ (eventTransformer.arctap values vl none tagLoc).1,
       (eventTransformer.arctap values vl none tagLoc).2) := by
  rcases hc : checkValuesCount "arctap" 1 values vl with ⟨ec, b⟩
  rcases h1 : checkValueTypeInt "arctap" "time" values 0 with ⟨E1, T1⟩
  cases b <;> simp only [eventTransformer.arctap, hc, h1] <;>
    try rcases T1 with _ | t1
  all_goals simp [rejectSubevent]

theorem eventTransformer.timing_subs_shift (values : List (WithLocation AFFValue))
    (vl : CstNodeLocation) (subs : Option (List (WithLocation AFFEvent) × CstNodeLocation))
    (tagLoc : CstNodeLocation) :
    eventTransformer.timing values vl subs tagLoc =
      (rejectSubevent "timing" subs ++ (eventTransformer.timing values vl none tagLoc).1,
       (eventTransformer.timing values vl none tagLoc).2) := by
  rcases hc : checkValuesCount "timing" 3 values vl with ⟨ec, b⟩
  rcases h1 : checkValueTypeInt "timing" "time" values 0 with ⟨E1, T1⟩
  rcases h2 : checkValueTypeFloat "timing" "bpm" values 1 with ⟨E2, T2⟩
  rcases h3 : checkValueTypeFloat "timing" "segment" values 2 with ⟨E3, T3⟩
  cases b <;> simp only [eventTransformer.timing, hc, h1, h2, h3] <;>
    try rcases T1 with _ | t1 <;> rcases T2 with _ | t2 <;> rcases T3 with _ | t3
  all_goals simp [rejectSubevent]

/-- Sample locations for concrete witnesses. -/
def sampleLoc (n : Nat) : CstNodeLocation :=
  { startLine := n, startColumn := n, startOffset := n,
    endLine := n, endColumn := n, endOffset := n }

/-- Sample tokens for concrete witnesses. -/
def sampleTok (t : TokenType) (s : String) (n : Nat) : IToken :=
  { tokenType := t, image := s, location := sampleLoc n }

theorem floatDigitChecker_spec (file : AFFFile) :
    floatDigitChecker file =
      (file.items.map (fun it =>
        match it.data with
        | .timing d => checkFloat d.bpm ++ checkFloat d.segment
        | .arc d =>
          checkFloat d.xStart ++ checkFloat d.xEnd ++ checkFloat d.yStart ++ checkFloat d.yEnd
        | _ => [])).join := by
  suffices h : ∀ (items : List (WithLocation AFFEvent)) (acc : List AFFError),
      items.foldl (fun errs it =>
        match it.data with
        | .timing d => errs ++ checkFloat d.bpm ++ checkFloat d.segment
        | .arc d =>
          errs ++ checkFloat d.xStart ++ checkFloat d.xEnd ++ checkFloat d.yStart ++
            checkFloat d.yEnd
        | _ => errs) acc =
        acc ++ (items.map (fun it =>
          match it.data with
          | .timing d => checkFloat d.bpm ++ checkFloat d.segment
          | .arc d =>
            checkFloat d.xStart ++ checkFloat d.xEnd ++ checkFloat d.yStart ++ checkFloat d.yEnd
          | _ => [])).join by
    simpa [floatDigitChecker] using h file.items []
  intro items
  induction items with
  | nil => intro acc; simp
  | cons it rest ih =>
    intro acc
    rcases hd : it.data with d | d | d | d | d <;>
      simp only [List.foldl_cons, List.map_cons, List.join_cons, hd] <;>
      rw [ih] <;> simp [List.append_assoc]

/-- C9: lowering and the checker pipeline are deterministic: running `affToAST`
on the same CST twice, and `processCheckers` on the same File twice, yields
identical (File, diagnostic-list) results — both are pure functions of their
inputs in this embedding, which contains every effect the source performs.
The pipeline result is moreover exactly the in-order concatenation of what
the four checkers of its fixed list append. -/
theorem c9_lowering_and_checker_pipeline_deterministic (node : AffNode)
    (metadataChecker valueRangeChecker timingChecker : AFFChecker) (file : AFFFile) :
    affToAST node = affToAST node ∧
    processCheckers metadataChecker valueRangeChecker timingChecker file =
      processCheckers metadataChecker valueRangeChecker timingChecker file ∧
    processCheckers metadataChecker valueRangeChecker timingChecker file =
      metadataChecker file ++ valueRangeChecker file ++ floatDigitChecker file ++
        timingChecker file :=
  ⟨rfl, rfl, by simp [processCheckers, List.append_assoc]⟩

/-- C10: for every event kind other than arc (tap, hold, timing, arctap), a
present subevents clause makes the transformer emit exactly one
"should not have subevents" Error at the subevents' location, prepended to the
diagnostics of the subevent-free run, while the produced event (if any) is
exactly the one of the subevent-free run — the event is not omitted for having
subevents. -/
theorem c10_subevent_rejection_keeps_event (values : List (WithLocation AFFValue))
    (vl : CstNodeLocation) (subs : List (WithLocation AFFEvent)) (sl : CstNodeLocation)
    (tagLoc : CstNodeLocation) :
    (∀ kind : String, rejectSubevent kind (some (subs, sl)) =
      [{ message := s!"Event with type \"{kind}\" should not have subevents."
         location := sl
         severity := DiagnosticSeverity.error
         relatedInfo := [] }]) ∧
    eventTransformer.tap values vl (some (subs, sl)) =
      (rejectSubevent "tap" (some (subs, sl)) ++ (eventTransformer.tap values vl none).1,
       (eventTransformer.tap values vl none).2) ∧
    eventTransformer.hold values vl (some (subs, sl)) tagLoc =
      (rejectSubevent "hold" (some (subs, sl)) ++
        (eventTransformer.hold values vl none tagLoc).1,
       (eventTransformer.hold values vl none tagLoc).2) ∧
    eventTransformer.arctap values vl (some (subs, sl)) tagLoc =
      (rejectSubevent "arctap" (some (subs, sl)) ++
        (eventTransformer.arctap values vl none tagLoc).1,
       (eventTransformer.arctap values vl none tagLoc).2) ∧
    eventTransformer.timing values vl (some (subs, sl)) tagLoc =
      (rejectSubevent "timing" (some (subs, sl)) ++
        (eventTransformer.timing values vl none tagLoc).1,
       (eventTransformer.timing values vl none tagLoc).2) :=
  ⟨fun _ => rfl,
   eventTransformer.tap_subs_shift values vl (some (subs, sl)),
   eventTransformer.hold_subs_shift values vl (some (subs, sl)) tagLoc,
   eventTransformer.arctap_subs_shift values vl (some (subs, sl)) tagLoc,
   eventTransformer.timing_subs_shift values vl (some (subs, sl)) tagLoc⟩

/-- C5: the float-digit checker emits exactly one Warning for a float field
whose captured fractional-digit count differs from 2 and nothing otherwise,
it visits exactly the bpm/segment fields of every Timing item and the
xStart/xEnd/yStart/yEnd fields of every Arc item of the lowered File, and the
digit count captured during lowering of a float token equals the literal
text's length minus the index of its decimal point minus one. -/
theorem c5_float_digit_warning_iff :
    (∀ (node : ValuesNode) (token : IToken), token ∈ node.value →
       token.tokenType = TokenType.float →
       ({ data := AFFValue.float
            { value := token.image
              digit := (token.image.length : Int) - jsIndexOf token.image '.' - 1 }
          location := token.location } : WithLocation AFFValue) ∈ visitValues node) ∧
    (∀ wl : WithLocation AFFFloat,
       (wl.data.digit ≠ 2 → checkFloat wl =
         [{ message := "Float values should have exact 2 digits in its fractional part."
            location := wl.location
            severity := DiagnosticSeverity.warning
            relatedInfo := [] }]) ∧
       (wl.data.digit = 2 → checkFloat wl = [])) ∧
    (∀ file : AFFFile, floatDigitChecker file =
      (file.items.map (fun it =>
        match it.data with
        | .timing d => checkFloat d.bpm ++ checkFloat d.segment
        | .arc d =>
          checkFloat d.xStart ++ checkFloat d.xEnd ++ checkFloat d.yStart ++ checkFloat d.yEnd
        | _ => [])).join) := by
  refine ⟨?_, ?_, floatDigitChecker_spec⟩
  · intro node token htok hft
    refine List.mem_map.mpr ⟨token, htok, ?_⟩
    simp [hft, locationFromToken]
  · intro wl
    constructor <;> intro h <;> simp [checkFloat, h]

/-- Witness for C5 at concrete inputs: bpm literal "120.5" has one fractional
digit and warns; "120.50" has two and does not; lowering records digit 1 for
"120.5". -/
theorem c5_witness :
    checkFloat { data := { value := "120.5", digit := 1 }, location := sampleLoc 0 } =
      [{ message := "Float values should have exact 2 digits in its fractional part."
         location := sampleLoc 0
         severity := DiagnosticSeverity.warning
         relatedInfo := [] }] ∧
    checkFloat { data := { value := "120.50", digit := 2 }, location := sampleLoc 0 } = [] ∧
    ({ data := AFFValue.float
         { value := "120.5"
           digit := (("120.5".length : Int) - jsIndexOf "120.5" '.' - 1) }
       location := sampleLoc 1 } : WithLocation AFFValue) ∈
      visitValues { value := [sampleTok TokenType.float "120.5" 1], location := sampleLoc 2 } :=
  ⟨(c5_float_digit_warning_iff.2.1 _).1 (by decide),
   (c5_float_digit_warning_iff.2.1 _).2 rfl,
   c5_float_digit_warning_iff.1 _ (sampleTok TokenType.float "120.5" 1) (by simp) rfl⟩

/-- C7: every value parser (trackId, colorId, arcKind, effect, bool)
propagates an absent input silently as "no value" with no diagnostic, returns
the domain value with no diagnostic for an in-set/range scalar, and for a
type-correct scalar outside its set/range emits exactly one Error naming the
allowed set/range and yields no value. -/
theorem c7_value_parsers_silent_domain_or_one_error (ek f : String) :
    (parseValue.trackId ek f none = ([], none)) ∧
    (∀ i : WithLocation AFFInt, 1 ≤ i.data.value → i.data.value ≤ 4 →
       parseValue.trackId ek f (some i) =
         ([], some { data := { value := i.data.value }, location := i.location })) ∧
    (∀ i : WithLocation AFFInt, i.data.value < 1 ∨ i.data.value > 4 →
       parseValue.trackId ek f (some i) = ([rangeError ek f trackIdsText i.location], none)) ∧
    (parseValue.colorId ek f none = ([], none)) ∧
    (∀ i : WithLocation AFFInt, 0 ≤ i.data.value → i.data.value ≤ 2 →
       parseValue.colorId ek f (some i) =
         ([], some { data := { value := i.data.value }, location := i.location })) ∧
    (∀ i : WithLocation AFFInt, i.data.value < 0 ∨ i.data.value > 2 →
       parseValue.colorId ek f (some i) = ([rangeError ek f colorIdsText i.location], none)) ∧
    (parseValue.arcKind ek f none = ([], none)) ∧
    (∀ w : WithLocation AFFWord, w.data.value ∈ affArcKinds →
       parseValue.arcKind ek f (some w) =
         ([], some { data := { value := w.data.value }, location := w.location })) ∧
    (∀ w : WithLocation AFFWord, w.data.value ∉ affArcKinds →
       parseValue.arcKind ek f (some w) = ([rangeError ek f arcKindsText w.location], none)) ∧
    (parseValue.effect ek f none = ([], none)) ∧
    (∀ w : WithLocation AFFWord, w.data.value ∈ affEffects →
       parseValue.effect ek f (some w) =
         ([], some { data := { value := w.data.value }, location := w.location })) ∧
    (∀ w : WithLocation AFFWord, w.data.value ∉ affEffects →
       parseValue.effect ek f (some w) = ([rangeError ek f effectsText w.location], none)) ∧
    (parseValue.bool ek f none = ([], none)) ∧
    (∀ w : WithLocation AFFWord, w.data.value ∈ affBools →
       parseValue.bool ek f (some w) =
         ([], some { data := { value := w.data.value == "true" }, location := w.location })) ∧
    (∀ w : WithLocation AFFWord, w.data.value ∉ affBools →
       parseValue.bool ek f (some w) = ([rangeError ek f boolsText w.location], none)) := by
  refine ⟨rfl, ?_, ?_, rfl, ?_, ?_, rfl, ?_, ?_, rfl, ?_, ?_, rfl, ?_, ?_⟩
  · intro i h1 h2
    have hn : ¬(i.data.value < 1 ∨ i.data.value > 4) := by omega
    simp [parseValue.trackId, hn]
  · intro i h
    simp only [parseValue.trackId]
    rw [if_pos h]
  · intro i h1 h2
    have hn : ¬(i.data.value < 0 ∨ i.data.value > 2) := by omega
    simp [parseValue.colorId, hn]
  · intro i h
    simp only [parseValue.colorId]
    rw [if_pos h]
  · intro w h
    simp [parseValue.arcKind, h]
  · intro w h
    simp [parseValue.arcKind, h]
  · intro w h
    simp [parseValue.effect, h]
  · intro w h
    simp [parseValue.effect, h]
  · intro w h
    simp [parseValue.bool, h]
  · intro w h
    simp [parseValue.bool, h]

/-- Witness for C7 at concrete inputs: track id 3 is accepted with no
diagnostic, track id 5 yields exactly one Error naming 1,2,3,4 and no value,
and arc kind "zz" yields exactly one Error naming the arc kinds. -/
theorem c7_witness :
    parseValue.trackId "tap" "track-id" (some { data := { value := 3 }, location := sampleLoc 0 }) =
      ([], some { data := { value := 3 }, location := sampleLoc 0 }) ∧
    parseValue.trackId "tap" "track-id" (some { data := { value := 5 }, location := sampleLoc 0 }) =
      ([rangeError "tap" "track-id" trackIdsText (sampleLoc 0)], none) ∧
    parseValue.arcKind "arc" "arc-kind" (some { data := { value := "zz" }, location := sampleLoc 0 }) =
      ([rangeError "arc" "arc-kind" arcKindsText (sampleLoc 0)], none) ∧
    parseValue.bool "arc" "is-line" none = ([], none) :=
  ⟨(c7_value_parsers_silent_domain_or_one_error "tap" "track-id").2.1 _ (by decide) (by decide),
   (c7_value_parsers_silent_domain_or_one_error "tap" "track-id").2.2.1 _ (by decide),
   (c7_value_parsers_silent_domain_or_one_error "arc" "arc-kind").2.2.2.2.2.2.2.2.1 _ (by decide),
   (c7_value_parsers_silent_domain_or_one_error "arc" "is-line").2.2.2.2.2.2.2.2.2.2.2.2.1⟩

/-- Sample int scalar for concrete witnesses. -/
def sampleIntV (v : Int) (n : Nat) : WithLocation AFFValue :=
  { data := AFFValue.int { value := v }, location := sampleLoc n }

/-- C1: each event transformer checks the exact value count (tap 2, hold 3,
arctap 1, timing 3, arc 10) and on a mismatch emits one Error naming the
expected and actual counts while yielding no event; an event is produced only
when every required field produced a value (and then with no field
diagnostics beyond the subevent rejection), and when any field fails the
transformer yields no event while the diagnostics already emitted are kept,
with at least one diagnostic explaining the failure. -/
theorem c1_event_transformer_arity_and_whole_event (values : List (WithLocation AFFValue))
    (vl : CstNodeLocation) (subs : Option (List (WithLocation AFFEvent) × CstNodeLocation))
    (tagLoc : CstNodeLocation) :
    (values.length ≠ 2 → eventTransformer.tap values vl subs =
      (rejectSubevent "tap" subs ++ [countError "tap" 2 values.length vl], none)) ∧
    (values.length ≠ 3 → eventTransformer.hold values vl subs tagLoc =
      (rejectSubevent "hold" subs ++ [countError "hold" 3 values.length vl], none)) ∧
    (values.length ≠ 1 → eventTransformer.arctap values vl subs tagLoc =
      (rejectSubevent "arctap" subs ++ [countError "arctap" 1 values.length vl], none)) ∧
    (values.length ≠ 3 → eventTransformer.timing values vl subs tagLoc =
      (rejectSubevent "timing" subs ++ [countError "timing" 3 values.length vl], none)) ∧
    (values.length ≠ 10 → eventTransformer.arc values vl subs tagLoc =
      ([countError "arc" 10 values.length vl], none)) ∧
    (∀ e, (eventTransformer.tap values vl subs).2 = some e →
      eventTransformer.tap values vl subs = (rejectSubevent "tap" subs, some e) ∧
      values.length = 2 ∧
      (checkValueTypeInt "tap" "time" values 0).2 = some e.time ∧
      (parseValue.trackId "tap" "track-id" (checkValueTypeInt "tap" "track-id" values 1).2).2 =
        some e.trackId) ∧
    (∀ e, (eventTransformer.hold values vl subs tagLoc).2 = some e →
      eventTransformer.hold values vl subs tagLoc = (rejectSubevent "hold" subs, some e) ∧
      values.length = 3 ∧
      (checkValueTypeInt "hold" "start" values 0).2 = some e.start ∧
      (checkValueTypeInt "hold" "end" values 1).2 = some e.endTime ∧
      (parseValue.trackId "hold" "track-id" (checkValueTypeInt "hold" "track-id" values 2).2).2 =
        some e.trackId ∧
      e.tagLocation = tagLoc) ∧
    (∀ e, (eventTransformer.arctap values vl subs tagLoc).2 = some e →
      eventTransformer.arctap values vl subs tagLoc = (rejectSubevent "arctap" subs, some e) ∧
      values.length = 1 ∧
      (checkValueTypeInt "arctap" "time" values 0).2 = some e.time ∧
      e.tagLocation = tagLoc) ∧
    (∀ e, (eventTransformer.timing values vl subs tagLoc).2 = some e →
      eventTransformer.timing values vl subs tagLoc = (rejectSubevent "timing" subs, some e) ∧
      values.length = 3 ∧
      (checkValueTypeInt "timing" "time" values 0).2 = some e.time ∧
      (checkValueTypeFloat "timing" "bpm" values 1).2 = some e.bpm ∧
      (checkValueTypeFloat "timing" "segment" values 2).2 = some e.segment ∧
      e.tagLocation = tagLoc) ∧
    (∀ e, (eventTransformer.arc values vl subs tagLoc).2 = some e →
      eventTransformer.arc values vl subs tagLoc = (arcSubErrs subs, some e) ∧
      values.length = 10 ∧
      (checkValueTypeInt "arc" "start" values 0).2 = some e.start ∧
      (checkValueTypeInt "arc" "end" values 1).2 = some e.endTime ∧
      (checkValueTypeFloat "arc" "x-start" values 2).2 = some e.xStart ∧
      (checkValueTypeFloat "arc" "x-end" values 3).2 = some e.xEnd ∧
      (parseValue.arcKind "arc" "arc-kind" (checkValueTypeWord "arc" "arc-kind" values 4).2).2 =
        some e.arcKind ∧
      (checkValueTypeFloat "arc" "y-start" values 5).2 = some e.yStart ∧
      (checkValueTypeFloat "arc" "y-end" values 6).2 = some e.yEnd ∧
      (parseValue.colorId "arc" "color-id" (checkValueTypeInt "arc" "color-id" values 7).2).2 =
        some e.colorId ∧
      (parseValue.effect "arc" "effect" (checkValueTypeWord "arc" "effect" values 8).2).2 =
        some e.effect ∧
      (parseValue.bool "arc" "is-line" (checkValueTypeWord "arc" "is-line" values 9).2).2 =
        some e.isLine ∧
      e.arctaps = arcSubArctaps subs ∧
      e.tagLocation = tagLoc) ∧
    ((eventTransformer.tap values vl subs).2 = none → ∃ extra, extra ≠ [] ∧
      eventTransformer.tap values vl subs = (rejectSubevent "tap" subs ++ extra, none)) ∧
    ((eventTransformer.hold values vl subs tagLoc).2 = none → ∃ extra, extra ≠ [] ∧
      eventTransformer.hold values vl subs tagLoc =
        (rejectSubevent "hold" subs ++ extra, none)) ∧
    ((eventTransformer.arctap values vl subs tagLoc).2 = none → ∃ extra, extra ≠ [] ∧
      eventTransformer.arctap values vl subs tagLoc =
        (rejectSubevent "arctap" subs ++ extra, none)) ∧
    ((eventTransformer.timing values vl subs tagLoc).2 = none → ∃ extra, extra ≠ [] ∧
      eventTransformer.timing values vl subs tagLoc =
        (rejectSubevent "timing" subs ++ extra, none)) ∧
    ((eventTransformer.arc values vl subs tagLoc).2 = none → ∃ extra, extra ≠ [] ∧
      eventTransformer.arc values vl subs tagLoc = (extra, none)) :=
  ⟨eventTransformer.tap_count_mismatch values vl subs,
   eventTransformer.hold_count_mismatch values vl subs tagLoc,
   eventTransformer.arctap_count_mismatch values vl subs tagLoc,
   eventTransformer.timing_count_mismatch values vl subs tagLoc,
   eventTransformer.arc_count_mismatch values vl subs tagLoc,
   fun e h => eventTransformer.tap_of_some values vl subs e h,
   fun e h => eventTransformer.hold_of_some values vl subs tagLoc e h,
   fun e h => eventTransformer.arctap_of_some values vl subs tagLoc e h,
   fun e h => eventTransformer.timing_of_some values vl subs tagLoc e h,
   fun e h => eventTransformer.arc_of_some values vl subs tagLoc e h,
   fun h => eventTransformer.tap_of_none values vl subs h,
   fun h => eventTransformer.hold_of_none values vl subs tagLoc h,
   fun h => eventTransformer.arctap_of_none values vl subs tagLoc h,
   fun h => eventTransformer.timing_of_none values vl subs tagLoc h,
   fun h => eventTransformer.arc_of_none values vl subs tagLoc h⟩

/-- Witness for C1 at concrete inputs: a tap with zero values is omitted with
the count error naming 2 expected and 0 actual; a valid tap (0, 2) is
produced with no diagnostic; a tap (0, 5) is omitted with at least one
diagnostic. -/
theorem c1_witness :
    eventTransformer.tap [] (sampleLoc 9) none =
      (rejectSubevent "tap" none ++ [countError "tap" 2 0 (sampleLoc 9)], none) ∧
    eventTransformer.tap [sampleIntV 0 0, sampleIntV 2 1] (sampleLoc 9) none =
      (rejectSubevent "tap" none,
       some { time := { data := { value := 0 }, location := sampleLoc 0 }
              trackId := { data := { value := 2 }, location := sampleLoc 1 } }) ∧
    (∃ extra, extra ≠ [] ∧ eventTransformer.tap [sampleIntV 0 0, sampleIntV 5 1] (sampleLoc 9) none =
      (rejectSubevent "tap" none ++ extra, none)) :=
  ⟨(c1_event_transformer_arity_and_whole_event [] (sampleLoc 9) none (sampleLoc 9)).1
     (by decide),
   ((c1_event_transformer_arity_and_whole_event [sampleIntV 0 0, sampleIntV 2 1] (sampleLoc 9)
      none (sampleLoc 9)).2.2.2.2.2.1 _ (by decide)).1,
   (c1_event_transformer_arity_and_whole_event [sampleIntV 0 0, sampleIntV 5 1] (sampleLoc 9)
      none (sampleLoc 9)).2.2.2.2.2.2.2.2.2.2.1 (by decide)⟩

/-- Sample float scalar for concrete witnesses. -/
def sampleFloatV (s : String) (d : Int) (n : Nat) : WithLocation AFFValue :=
  { data := AFFValue.float { value := s, digit := d }, location := sampleLoc n }

/-- Sample word scalar for concrete witnesses. -/
def sampleWordV (s : String) (n : Nat) : WithLocation AFFValue :=
  { data := AFFValue.word { value := s }, location := sampleLoc n }

/-- C2: for an Arc whose ten own fields validate (the sub-event-free run
produces an event), the Arc is still produced when a subevents clause is
present: the diagnostics are exactly the per-sub-event kind errors, each
non-arctap sub-event is dropped with one Error at that sub-event's location,
and the arctap sub-events are retained in source order. -/
theorem c2_arc_produced_with_subevents_filtered (values : List (WithLocation AFFValue))
    (vl : CstNodeLocation) (subs : List (WithLocation AFFEvent)) (sl : CstNodeLocation)
    (tagLoc : CstNodeLocation) (e0 : AFFArcEvent)
    (h : (eventTransformer.arc values vl none tagLoc).2 = some e0) :
    eventTransformer.arc values vl (some (subs, sl)) tagLoc =
      ((collectArctaps subs).1,
       some { e0 with arctaps := some { data := (collectArctaps subs).2, location := sl } }) ∧
    (collectArctaps subs).1 = subs.filterMap (fun se =>
       match se.data with
       | .arctap _ => none
       | ev => some (subeventTypeError ev.kindName se.location)) ∧
    (collectArctaps subs).2 = subs.filterMap (fun se =>
       match se.data with
       | .arctap a => some { data := a, location := se.location }
       | _ => none) := by
  obtain ⟨deq, dlen, ds, de, dxs, dxe, dak, dys, dye, dci, deff, dil, dat, dtag⟩ :=
    eventTransformer.arc_of_some values vl none tagLoc e0 h
  have hc : checkValuesCount "arc" 10 values vl = ([], true) := by simp [checkValuesCount, dlen]
  have q1 := checkValueTypeInt_of_some "arc" "start" values 0 e0.start ds
  have q2 := checkValueTypeInt_of_some "arc" "end" values 1 e0.endTime de
  have q3 := checkValueTypeFloat_of_some "arc" "x-start" values 2 e0.xStart dxs
  have q4 := checkValueTypeFloat_of_some "arc" "x-end" values 3 e0.xEnd dxe
  have p6 := parseValue.arcKind_of_some "arc" "arc-kind" _ e0.arcKind dak
  rcases Option.isSome_iff_exists.mp p6.2.2 with ⟨w5, hw5⟩
  have q5 := checkValueTypeWord_of_some "arc" "arc-kind" values 4 w5 hw5
  have h6 := p6.1
  rw [hw5] at h6
  have q7 := checkValueTypeFloat_of_some "arc" "y-start" values 5 e0.yStart dys
  have q8 := checkValueTypeFloat_of_some "arc" "y-end" values 6 e0.yEnd dye
  have p10 := parseValue.colorId_of_some "arc" "color-id" _ e0.colorId dci
  rcases Option.isSome_iff_exists.mp p10.2.2.2 with ⟨i9, hi9⟩
  have q9 := checkValueTypeInt_of_some "arc" "color-id" values 7 i9 hi9
  have h10 := p10.1
  rw [hi9] at h10
  have p12 := parseValue.effect_of_some "arc" "effect" _ e0.effect deff
  rcases Option.isSome_iff_exists.mp p12.2.2 with ⟨w11, hw11⟩
  have q11 := checkValueTypeWord_of_some "arc" "effect" values 8 w11 hw11
  have h12 := p12.1
  rw [hw11] at h12
  have p14 := parseValue.bool_of_some "arc" "is-line" _ e0.isLine dil
  rcases Option.isSome_iff_exists.mp p14.2 with ⟨w13, hw13⟩
  have q13 := checkValueTypeWord_of_some "arc" "is-line" values 9 w13 hw13
  have h14 := p14.1
  rw [hw13] at h14
  rcases hca : collectArctaps subs with ⟨ces, cas⟩
  refine ⟨?_, ?_, ?_⟩
  · simp only [eventTransformer.arc, hc, q1, q2, q3, q4, q5, h6, q7, q8, q9, h10, q11, h12,
      q13, h14, transformArcSubevents, hca]
    simp [dtag]
  · have := congrArg Prod.fst (collectArctaps_spec subs)
    simpa [hca] using this
  · have := congrArg Prod.snd (collectArctaps_spec subs)
    simpa [hca] using this

/-- Concrete ten-field arc value list for the C2 witness. -/
def c2ArcValues : List (WithLocation AFFValue) :=
  [sampleIntV 0 0, sampleIntV 100 1, sampleFloatV "0.25" 2 2, sampleFloatV "1.00" 2 3,
   sampleWordV "si" 4, sampleFloatV "0.50" 2 5, sampleFloatV "1.00" 2 6, sampleIntV 1 7,
   sampleWordV "none" 8, sampleWordV "false" 9]

/-- A non-arctap (tap) sub-event for the C2 witness. -/
def c2SubTap : WithLocation AFFEvent :=
  { data := AFFEvent.tap
      { time := { data := { value := 0 }, location := sampleLoc 10 }
        trackId := { data := { value := 2 }, location := sampleLoc 11 } }
    location := sampleLoc 12 }

/-- An arctap sub-event for the C2 witness. -/
def c2SubArctap : WithLocation AFFEvent :=
  { data := AFFEvent.arctap
      { tagLocation := sampleLoc 14
        time := { data := { value := 50 }, location := sampleLoc 13 } }
    location := sampleLoc 15 }

/-- The arc event the C2 witness values produce without a subevents clause. -/
def c2Arc0 : AFFArcEvent :=
  { tagLocation := sampleLoc 92
    start := { data := { value := 0 }, location := sampleLoc 0 }
    endTime := { data := { value := 100 }, location := sampleLoc 1 }
    xStart := { data := { value := "0.25", digit := 2 }, location := sampleLoc 2 }
    xEnd := { data := { value := "1.00", digit := 2 }, location := sampleLoc 3 }
    arcKind := { data := { value := "si" }, location := sampleLoc 4 }
    yStart := { data := { value := "0.50", digit := 2 }, location := sampleLoc 5 }
    yEnd := { data := { value := "1.00", digit := 2 }, location := sampleLoc 6 }
    colorId := { data := { value := 1 }, location := sampleLoc 7 }
    effect := { data := { value := "none" }, location := sampleLoc 8 }
    isLine := { data := { value := false }, location := sampleLoc 9 }
    arctaps := none }

/-- Witness for C2 at a concrete input: the arc with one tap sub-event and one
arctap sub-event is still produced; the tap is dropped with one Error at the
sub-event's location and the arctap is retained. -/
theorem c2_witness :
    eventTransformer.arc c2ArcValues (sampleLoc 90) (some ([c2SubTap, c2SubArctap], sampleLoc 91))
        (sampleLoc 92) =
      ((collectArctaps [c2SubTap, c2SubArctap]).1,
       some { c2Arc0 with
              arctaps := some { data := (collectArctaps [c2SubTap, c2SubArctap]).2
                                location := sampleLoc 91 } }) ∧
    (collectArctaps [c2SubTap, c2SubArctap]).1 =
      [subeventTypeError "tap" (sampleLoc 12)] ∧
    (collectArctaps [c2SubTap, c2SubArctap]).2 =
      [{ data := { tagLocation := sampleLoc 14
                   time := { data := { value := 50 }, location := sampleLoc 13 } }
         location := sampleLoc 15 }] :=
  ⟨(c2_arc_produced_with_subevents_filtered c2ArcValues (sampleLoc 90) [c2SubTap, c2SubArctap]
      (sampleLoc 91) (sampleLoc 92) c2Arc0 (by decide)).1,
   by decide, by decide⟩

/-- C6: an item whose lowered event has kind arctap is rejected: lowering
emits one Error at the event's tag location and omits the item, while an
arctap nested as a sub-event of an arc is accepted without any error and
retained (and a sub-event list of arctaps only yields no error at all). -/
theorem c6_toplevel_arctap_rejected_nested_accepted :
    (∀ (node : ItemNode) (es : List AFFError) (a : AFFArctapEvent),
       visitEvent node.event = (es, some (AFFEvent.arctap a)) →
       visitItem node = (es ++ [arctapAsItemError "arctap" a.tagLocation], none)) ∧
    (∀ (rest : List (WithLocation AFFEvent)) (a : AFFArctapEvent) (loc : CstNodeLocation),
       collectArctaps ({ data := AFFEvent.arctap a, location := loc } :: rest) =
         ((collectArctaps rest).1,
          { data := a, location := loc } :: (collectArctaps rest).2)) ∧
    (∀ subs : List (WithLocation AFFEvent),
       (∀ se ∈ subs, ∃ a, se.data = AFFEvent.arctap a) → (collectArctaps subs).1 = []) := by
  refine ⟨?_, ?_, ?_⟩
  · intro node es a h
    simp only [visitItem, h]
    simp [arctapAsItemError, AFFEvent.kindName]
  · intro rest a loc
    rcases hca : collectArctaps rest with ⟨errs, ars⟩
    simp [collectArctaps, hca]
  · intro subs h
    induction subs with
    | nil => rfl
    | cons se rest ih =>
      rcases h se (List.mem_cons_self se rest) with ⟨a, ha⟩
      rcases hca : collectArctaps rest with ⟨errs, ars⟩
      have hrest : errs = [] := by
        have := ih (fun x hx => h x (List.mem_cons_of_mem se hx))
        rw [hca] at this
        exact this
      simp [collectArctaps, hca, ha, hrest]

/-- The CST event node of a tagged arctap event with value 100, for the C6
witness. -/
def c6ArctapNode : EventNode :=
  EventNode.mk (some (sampleTok TokenType.word "arctap" 30))
    { value := [sampleTok TokenType.int "100" 31], location := sampleLoc 32 } none (sampleLoc 33)

/-- Witness for C6 at a concrete input: a top-level arctap item with value 100
is omitted with one Error at its tag location, and the same arctap as an
arc sub-event is retained without error. -/
theorem c6_witness :
    visitItem { event := c6ArctapNode } =
      ([] ++ [arctapAsItemError "arctap" (sampleLoc 30)], none) ∧
    collectArctaps
        [{ data := AFFEvent.arctap
             { tagLocation := sampleLoc 30
               time := { data := { value := 100 }, location := sampleLoc 31 } }
           location := sampleLoc 33 }] =
      (([] : List AFFError),
       [{ data := { tagLocation := sampleLoc 30
                    time := { data := { value := 100 }, location := sampleLoc 31 } }
          location := sampleLoc 33 }]) :=
  ⟨c6_toplevel_arctap_rejected_nested_accepted.1 _ []
     { tagLocation := sampleLoc 30
       time := { data := { value := 100 }, location := sampleLoc 31 } } (by decide),
   c6_toplevel_arctap_rejected_nested_accepted.2.1 [] _ (sampleLoc 33)⟩

/-- A metadata section with three occurrences of the key "k", at locations
1, 2 and 3. -/
def c3DupNode : MetadataNode :=
  { metadataEntry :=
      [{ key := sampleTok TokenType.word "k" 1, data := sampleTok TokenType.word "v1" 21,
         location := sampleLoc 41 },
       { key := sampleTok TokenType.word "k" 2, data := sampleTok TokenType.word "v2" 22,
         location := sampleLoc 42 },
       { key := sampleTok TokenType.word "k" 3, data := sampleTok TokenType.word "v3" 23,
         location := sampleLoc 43 }]
    metaEnd := sampleTok TokenType.word "e" 50
    location := sampleLoc 51 }

/-- Counterexample for C3: in a metadata section with three occurrences of
"k" (at locations 1, 2, 3), the Error reported for the third occurrence cites
location 1 (the first occurrence) in its related info, not location 2, the
immediately preceding occurrence. -/
theorem c3_counterexample :
    ((visitMetadata c3DupNode).1.get? 1).map (fun e => e.relatedInfo) =
      some [{ message := "Previous defination", location := sampleLoc 1 }] ∧
    sampleLoc 1 ≠ sampleLoc 2 :=
  ⟨by decide, by decide⟩

/-- C3 (amended): for a metadata section with repeated keys, every
duplicate-key Error's related info cites the first occurrence of the key (for
the second occurrence of a key this coincides with the immediately preceding
one; for later occurrences it does not). -/
theorem c3_duplicate_error_cites_first_occurrence (node : MetadataNode) :
    ∀ e ∈ (visitMetadata node).1, ∃ k dloc n1,
      firstWith node.metadataEntry k = some n1 ∧
      e = duplicateKeyError k dloc n1.key.location :=
  visitMetadata_cites_first node

/-- Witness for C3 (amended) at the concrete three-occurrence section: the
second duplicate error is a duplicate-key error citing the first
occurrence. -/
theorem c3_witness :
    ∃ k dloc n1, firstWith c3DupNode.metadataEntry k = some n1 ∧
      duplicateKeyError "k" (sampleLoc 3) (sampleLoc 1) =
        duplicateKeyError k dloc n1.key.location :=
  c3_duplicate_error_cites_first_occurrence c3DupNode
    (duplicateKeyError "k" (sampleLoc 3) (sampleLoc 1)) (by decide)

/-- C4: metadata lowering folds entries in source order; each duplicate
occurrence of an already-seen key produces exactly one Error whose related
info cites the first occurrence's key location, and the resulting map retains
exactly the first occurrence of each key, so keys are unique post-lowering. -/
theorem c4_metadata_duplicates_first_occurrence_kept (node : MetadataNode) :
    (visitMetadata node).1 = dupErrs [] node.metadataEntry ∧
    (visitMetadata node).1.length + (visitMetadata node).2.data.length =
      node.metadataEntry.length ∧
    (∀ k, mapGet? (visitMetadata node).2.data k =
      (firstWith node.metadataEntry k).map metadataEntryValue) ∧
    ((visitMetadata node).2.data.map Prod.fst).Nodup ∧
    (∀ e ∈ (visitMetadata node).1, ∃ k dloc n1,
      firstWith node.metadataEntry k = some n1 ∧
      e = duplicateKeyError k dloc n1.key.location) := by
  have hv := visitMetadata_eq node
  refine ⟨by rw [hv], ?_, ?_, ?_, visitMetadata_cites_first node⟩
  · rw [hv]
    simpa using dupErrs_length node.metadataEntry []
  · intro k
    rw [hv]
    have := mapGet?_mapFold node.metadataEntry [] k
    simpa [mapGet?] using this
  · rw [hv]
    exact mapFold_keys_nodup node.metadataEntry [] (by simp)

/-- Witness for C4 at the concrete three-occurrence section: the map lookup
for "k" is the first occurrence, and the first duplicate error cites the
first occurrence. -/
theorem c4_witness :
    mapGet? (visitMetadata c3DupNode).2.data "k" =
      (firstWith c3DupNode.metadataEntry "k").map metadataEntryValue ∧
    ∃ k dloc n1, firstWith c3DupNode.metadataEntry k = some n1 ∧
      duplicateKeyError "k" (sampleLoc 2) (sampleLoc 1) =
        duplicateKeyError k dloc n1.key.location :=
  ⟨(c4_metadata_duplicates_first_occurrence_kept c3DupNode).2.2.1 "k",
   (c4_metadata_duplicates_first_occurrence_kept c3DupNode).2.2.2.2
     (duplicateKeyError "k" (sampleLoc 2) (sampleLoc 1)) (by decide)⟩

/-- Domain predicate for the lowered AST: every stored domain value lies in
its declared set/range. -/
def EventDomainOK : AFFEvent → Prop
  | .tap e => e.trackId.data.value ∈ affTrackIds
  | .hold e => e.trackId.data.value ∈ affTrackIds
  | .arc e => e.colorId.data.value ∈ affColorIds ∧ e.arcKind.data.value ∈ affArcKinds ∧
      e.effect.data.value ∈ affEffects ∧
      (e.isLine.data.value = true ∨ e.isLine.data.value = false)
  | .timing _ => True
  | .arctap _ => True

theorem mem_affTrackIds_of_bounds (v : Int) (h1 : 1 ≤ v) (h2 : v ≤ 4) : v ∈ affTrackIds := by
  simp only [affTrackIds, List.mem_cons, List.mem_singleton]
  omega

theorem mem_affColorIds_of_bounds (v : Int) (h1 : 0 ≤ v) (h2 : v ≤ 2) : v ∈ affColorIds := by
  simp only [affColorIds, List.mem_cons, List.mem_singleton]
  omega

theorem eventTransformer.tap_domainOK (values : List (WithLocation AFFValue))
    (vl : CstNodeLocation) (subs : Option (List (WithLocation AFFEvent) × CstNodeLocation))
    (e : AFFTapEvent) (h : (eventTransformer.tap values vl subs).2 = some e) :
    EventDomainOK (AFFEvent.tap e) := by
  have d := eventTransformer.tap_of_some values vl subs e h
  have p := parseValue.trackId_of_some "tap" "track-id" _ e.trackId d.2.2.2
  exact mem_affTrackIds_of_bounds _ p.2.1 p.2.2.1

theorem eventTransformer.hold_domainOK (values : List (WithLocation AFFValue))
    (vl : CstNodeLocation) (subs : Option (List (WithLocation AFFEvent) × CstNodeLocation))
    (tagLoc : CstNodeLocation) (e : AFFHoldEvent)
    (h : (eventTransformer.hold values vl subs tagLoc).2 = some e) :
    EventDomainOK (AFFEvent.hold e) := by
  have d := eventTransformer.hold_of_some values vl subs tagLoc e h
  have p := parseValue.trackId_of_some "hold" "track-id" _ e.trackId d.2.2.2.2.1
  exact mem_affTrackIds_of_bounds _ p.2.1 p.2.2.1

theorem eventTransformer.arc_domainOK (values : List (WithLocation AFFValue))
    (vl : CstNodeLocation) (subs : Option (List (WithLocation AFFEvent) × CstNodeLocation))
    (tagLoc : CstNodeLocation) (e : AFFArcEvent)
    (h : (eventTransformer.arc values vl subs tagLoc).2 = some e) :
    EventDomainOK (AFFEvent.arc e) := by
  obtain ⟨deq, dlen, ds, de, dxs, dxe, dak, dys, dye, dci, deff, dil, dat, dtag⟩ :=
    eventTransformer.arc_of_some values vl subs tagLoc e h
  have pK := parseValue.arcKind_of_some "arc" "arc-kind" _ e.arcKind dak
  have pC := parseValue.colorId_of_some "arc" "color-id" _ e.colorId dci
  have pE := parseValue.effect_of_some "arc" "effect" _ e.effect deff
  refine ⟨mem_affColorIds_of_bounds _ pC.2.1 pC.2.2.1, pK.2.1, pE.2.1, ?_⟩
  cases hb : e.isLine.data.value
  · exact Or.inr rfl
  · exact Or.inl rfl

theorem dispatchEvent_domainOK (word : Option IToken) (vals : List (WithLocation AFFValue))
    (valuesLocation : CstNodeLocation) (subErrs : List AFFError)
    (subs : Option (List (WithLocation AFFEvent) × CstNodeLocation)) (ev : AFFEvent)
    (h : (dispatchEvent word vals valuesLocation subErrs subs).2 = some ev) :
    EventDomainOK ev := by
  rcases word with _ | tag
  · rw [dispatchEvent.eq_def] at h
    dsimp only at h
    rcases htap : eventTransformer.tap vals valuesLocation subs with ⟨E, R⟩
    rw [htap] at h
    dsimp only at h
    rcases Option.map_eq_some'.mp h with ⟨te, hR, rfl⟩
    exact eventTransformer.tap_domainOK _ _ _ te (by rw [htap, hR])
  · rw [dispatchEvent.eq_def] at h
    dsimp only at h
    by_cases h1 : tag.image = "timing"
    · rw [if_pos h1] at h
      rcases ht : eventTransformer.timing vals valuesLocation subs
          (locationFromToken tag) with ⟨E, R⟩
      rw [ht] at h
      dsimp only at h
      rcases Option.map_eq_some'.mp h with ⟨te, hR, rfl⟩
      exact trivial
    · rw [if_neg h1] at h
      by_cases h2 : tag.image = "hold"
      · rw [if_pos h2] at h
        rcases ht : eventTransformer.hold vals valuesLocation subs
            (locationFromToken tag) with ⟨E, R⟩
        rw [ht] at h
        dsimp only at h
        rcases Option.map_eq_some'.mp h with ⟨te, hR, rfl⟩
        exact eventTransformer.hold_domainOK _ _ _ _ te (by rw [ht, hR])
      · rw [if_neg h2] at h
        by_cases h3 : tag.image = "arc"
        · rw [if_pos h3] at h
          rcases ht : eventTransformer.arc vals valuesLocation subs
              (locationFromToken tag) with ⟨E, R⟩
          rw [ht] at h
          dsimp only at h
          rcases Option.map_eq_some'.mp h with ⟨te, hR, rfl⟩
          exact eventTransformer.arc_domainOK _ _ _ _ te (by rw [ht, hR])
        · rw [if_neg h3] at h
          by_cases h4 : tag.image = "arctap"
          · rw [if_pos h4] at h
            rcases ht : eventTransformer.arctap vals valuesLocation subs
                (locationFromToken tag) with ⟨E, R⟩
            rw [ht] at h
            dsimp only at h
            rcases Option.map_eq_some'.mp h with ⟨te, hR, rfl⟩
            exact trivial
          · rw [if_neg h4] at h
            dsimp only at h
            exact Option.noConfusion h

theorem visitEvent_domainOK (node : EventNode) :
    ∀ ev : AFFEvent, (visitEvent node).2 = some ev → EventDomainOK ev := by
  intro ev h
  rcases node with ⟨word, values, subevents, loc⟩
  rw [visitEvent.eq_def] at h
  rcases subevents with _ | ⟨nodes, subeventsLocation⟩ <;> dsimp only at h
  · exact dispatchEvent_domainOK _ _ _ _ _ ev h
  · exact dispatchEvent_domainOK _ _ _ _ _ ev h

theorem visitItem_domainOK (node : ItemNode) :
    ∀ it, (visitItem node).2 = some it → EventDomainOK it.data := by
  intro it h
  rcases he : visitEvent node.event with ⟨es, ev⟩
  simp only [visitItem, he] at h
  rcases ev with _ | e
  · simp at h
  · rcases e with te | tpe | he2 | ae | a <;> dsimp only at h
    · rcases Option.some.inj h with rfl
      exact visitEvent_domainOK node.event _ (by rw [he])
    · rcases Option.some.inj h with rfl
      exact visitEvent_domainOK node.event _ (by rw [he])
    · rcases Option.some.inj h with rfl
      exact visitEvent_domainOK node.event _ (by rw [he])
    · rcases Option.some.inj h with rfl
      exact visitEvent_domainOK node.event _ (by rw [he])
    · exact Option.noConfusion h

theorem visitItems_domainOK (nodes : List ItemNode) :
    ∀ it ∈ (visitItems nodes).2, EventDomainOK it.data := by
  induction nodes with
  | nil => intro it hit; simp [visitItems] at hit
  | cons n rest ih =>
    intro it hit
    rcases hv : visitItem n with ⟨E1, R1⟩
    rcases hr : visitItems rest with ⟨E2, R2⟩
    simp only [visitItems, hv, hr] at hit
    rcases R1 with _ | i
    · dsimp only at hit
      exact ih it (by rw [hr]; exact hit)
    · dsimp only at hit
      rcases List.mem_cons.mp hit with rfl | htail
      · exact visitItem_domainOK n it (by rw [hv])
      · exact ih it (by rw [hr]; exact htail)

/-- C8: in every File produced by lowering, every stored domain value lies in
its declared set/range — every trackId is in {1,2,3,4}, every colorId in
{0,1,2}, every arcKind in {b,s,si,so,sisi,siso,soso,sosi}, every effect in
{none,full,incremental}, and every isLine is a boolean — because a domain
value is only constructed through a validated value-parser conversion. -/
theorem c8_domain_values_in_range (node : AffNode) :
    ∀ it ∈ (affToAST node).1.items, EventDomainOK it.data := by
  intro it hit
  rcases hm : visitMetadata node.metadata with ⟨EM, MD⟩
  rcases hi : visitItems node.items with ⟨EI, ITS⟩
  have hitems : (affToAST node).1.items = ITS := by
    simp [affToAST, visitAff, hm, hi]
  rw [hitems] at hit
  exact visitItems_domainOK node.items it (by rw [hi]; exact hit)

/-- A one-item file (a valid untagged tap `(0, 2)`) for the C8 witness. -/
def c8Node : AffNode :=
  { metadata :=
      { metadataEntry := [], metaEnd := sampleTok TokenType.word "e" 60,
        location := sampleLoc 61 }
    items :=
      [{ event := EventNode.mk none
           { value := [sampleTok TokenType.int "0" 62, sampleTok TokenType.int "2" 63],
             location := sampleLoc 64 } none (sampleLoc 65) }] }

/-- Witness for C8 at a concrete file: the lowered tap item's track id 2 is
in the declared range. -/
theorem c8_witness :
    EventDomainOK (AFFEvent.tap
      { time := { data := { value := 0 }, location := sampleLoc 62 }
        trackId := { data := { value := 2 }, location := sampleLoc 63 } }) :=
  c8_domain_values_in_range c8Node
    { data := AFFEvent.tap
        { time := { data := { value := 0 }, location := sampleLoc 62 }
          trackId := { data := { value := 2 }, location := sampleLoc 63 } }
      location := sampleLoc 65 }
    (by decide)
